import Mathlib

/-!
Verification of the Saga batch-processing engine of the booking-system backend.

The definitions below are a shallow embedding of:
  * `app/core/batch_processor.py`   (class `SagaBatchProcessor`)
  * `app/services/batch_service.py` (class `BatchOperationService`, the parts
    reachable from bulk set-dates)
  * `app/services/booking_service.py` (`BookingService.check_availability`)
  * the enums and entity fields of `app/models/booking.py`,
    `app/models/accommodation.py` touched by those functions, and the
    pydantic record shapes of `app/schemas/batch.py`.

The relational store is embedded as an explicit `DB` value (lists of rows);
every `UPDATE ... WHERE id = t` statement becomes a map over the rows, every
`SELECT ... WHERE id = t` a `List.find?`.  Python exceptions that the source
catches are embedded as `Except` values; the per-operation `try/except`
boundary of `_execute_single_operation` becomes a `match` on that `Except`.
Timestamps and generated UUIDs are irrelevant to every claim and are omitted
from the record shapes.  The bounded-parallel execution strategy
(`_execute_operations_parallel`) is embedded as its deterministic
linearization: `asyncio.gather` returns results in input order and the
per-operation boundary already converts exceptions to failed results, so the
result list and the saga bookkeeping coincide with running the operations in
list order with no fail-fast break.
-/

namespace BookingSaga

/-! ## Enumerations (`app/models/booking.py`, `app/models/accommodation.py`) -/

/-- `BookingStatus` from `app/models/booking.py`. -/
inductive BookingStatus
  | pending
  | confirmed
  | checked_in
  | checked_out
  | cancelled
deriving DecidableEq

/-- `AccommodationStatus` from `app/models/accommodation.py`. -/
inductive AccommodationStatus
  | available
  | occupied
  | maintenance
  | out_of_order
deriving DecidableEq

/-- `AccommodationCondition` from `app/models/accommodation.py`. -/
inductive AccommodationCondition
  | ok
  | minor_issue
  | critical
deriving DecidableEq

/-! ## Entity rows.

Only the columns read or written by the batch engine are embedded
(`_capture_entity_state` reads exactly status/comments/check_in_date/
check_out_date/is_open_dates of a booking and status/condition of an
accommodation; the handlers write subsets of these; `check_availability`
additionally reads `accommodation_id`).  Dates are embedded as day ordinals
(`Nat`); a `NULL`able column is an `Option`. -/

/-- The columns of a `bookings` row used by the batch engine. -/
structure Booking where
  id : Nat
  accommodation_id : Nat
  check_in_date : Option Nat
  check_out_date : Option Nat
  is_open_dates : Bool
  status : BookingStatus
  comments : Option String
deriving DecidableEq

/-- The columns of an `accommodations` row used by the batch engine. -/
structure Accommodation where
  id : Nat
  status : AccommodationStatus
  condition : AccommodationCondition
deriving DecidableEq

/-- The relational store seen by the engine: the two tables it touches. -/
structure DB where
  bookings : List Booking
  accommodations : List Accommodation
deriving DecidableEq

/-- `SELECT * FROM bookings WHERE id = i` (first row; ids are the primary key). -/
def DB.findBooking (db : DB) (i : Nat) : Option Booking :=
  db.bookings.find? (fun b => b.id == i)

/-- `SELECT * FROM accommodations WHERE id = i`. -/
def DB.findAccommodation (db : DB) (i : Nat) : Option Accommodation :=
  db.accommodations.find? (fun a => a.id == i)

/-- `UPDATE bookings SET ... WHERE id = i`: rewrite every matching row. -/
def DB.updateBookings (db : DB) (i : Nat) (f : Booking → Booking) : DB :=
  { db with bookings := db.bookings.map (fun b => if b.id == i then f b else b) }

/-- `UPDATE accommodations SET ... WHERE id = i`. -/
def DB.updateAccommodations (db : DB) (i : Nat) (f : Accommodation → Accommodation) : DB :=
  { db with accommodations := db.accommodations.map (fun a => if a.id == i then f a else a) }

/-! ## Batch schema types (`app/schemas/batch.py`) -/

/-- `BatchOperationType` from `app/schemas/batch.py` (all eight members). -/
inductive BatchOperationType
  | booking_status_update
  | booking_cancel
  | booking_set_dates
  | booking_payment_add
  | accommodation_status_update
  | client_update
  | inventory_assign
  | custom_item_add
deriving DecidableEq

/-- The `.value` string of each `BatchOperationType` member. -/
def BatchOperationType.value : BatchOperationType → String
  | .booking_status_update => "booking_status_update"
  | .booking_cancel => "booking_cancel"
  | .booking_set_dates => "booking_set_dates"
  | .booking_payment_add => "booking_payment_add"
  | .accommodation_status_update => "accommodation_status_update"
  | .client_update => "client_update"
  | .inventory_assign => "inventory_assign"
  | .custom_item_add => "custom_item_add"

/-- `BatchOperationType(s)` by value, as the Python enum constructor
(raises `ValueError`, i.e. `none`, on an unknown value). -/
def BatchOperationType.ofValue : String → Option BatchOperationType
  | "booking_status_update" => some .booking_status_update
  | "booking_cancel" => some .booking_cancel
  | "booking_set_dates" => some .booking_set_dates
  | "booking_payment_add" => some .booking_payment_add
  | "accommodation_status_update" => some .accommodation_status_update
  | "client_update" => some .client_update
  | "inventory_assign" => some .inventory_assign
  | "custom_item_add" => some .custom_item_add
  | _ => none

/-- `BatchOperationStatus` from `app/schemas/batch.py`
(`partly_completed` embeds the member the source spells PARTIALLY_COMPLETED). -/
inductive BatchOperationStatus
  | pending
  | processing
  | completed
  | failed
  | partly_completed
  | cancelled
deriving DecidableEq

/-- `BatchJobStatus` from `app/schemas/batch.py`. -/
inductive BatchJobStatus
  | queued
  | running
  | completed
  | failed
  | cancelled
deriving DecidableEq

/-- A value of a Python operation-parameter dict (`Dict[str, Any]`):
the engine only ever reads strings, dates, booleans, numbers or `None`. -/
inductive PValue
  | vstr (s : String)
  | vnat (n : Nat)
  | vbool (b : Bool)
  | vnone
deriving DecidableEq

/-- A Python `Dict[str, Any]` parameter map, as an association list. -/
abbrev Params := List (String × PValue)

/-- `parameters.get(k)`: `None` both for a missing key and a `None` value. -/
def Params.get (p : Params) (k : String) : PValue :=
  (List.lookup k p).getD .vnone

/-- How Python renders the value inside an f-string (`f"...{v}..."`). -/
def PValue.pythonStr : PValue → String
  | .vstr s => s
  | .vnat n => toString n
  | .vbool b => if b then "True" else "False"
  | .vnone => "None"

/-- The value written into a nullable `Date` column when the handler passes
the raw parameter to `.values(...)`: a date is stored, anything non-date
(in particular `None` / a missing key) stores `NULL`. -/
def PValue.toDateVal : PValue → Option Nat
  | .vnat n => some n
  | _ => none

/-- `BookingStatus(v)` — the Python enum constructor, matching by value. -/
def parseBookingStatus : PValue → Option BookingStatus
  | .vstr "pending" => some .pending
  | .vstr "confirmed" => some .confirmed
  | .vstr "checked_in" => some .checked_in
  | .vstr "checked_out" => some .checked_out
  | .vstr "cancelled" => some .cancelled
  | _ => none

/-- `AccommodationStatus(v)` — the Python enum constructor, matching by value. -/
def parseAccommodationStatus : PValue → Option AccommodationStatus
  | .vstr "available" => some .available
  | .vstr "occupied" => some .occupied
  | .vstr "maintenance" => some .maintenance
  | .vstr "out_of_order" => some .out_of_order
  | _ => none

/-- `BatchOperationItem` from `app/schemas/batch.py` (execution-tracking
fields that the engine never reads back are omitted). -/
structure BatchOperationItem where
  operation_id : String
  target_id : Nat
  operation_type : BatchOperationType
  parameters : Params
deriving DecidableEq

/-- The dict returned by `_capture_entity_state`: a booking projection, an
accommodation projection, or the empty dict `{}` (entity not found /
unhandled type).  Enum values and ISO date strings are stored through their
evident bijections with the enum type and the day ordinal. -/
inductive EntityState
  | bookingState (status : BookingStatus) (comments : Option String)
      (check_in_date : Option Nat) (check_out_date : Option Nat) (is_open_dates : Bool)
  | accommodationState (status : AccommodationStatus) (condition : AccommodationCondition)
  | emptyState
deriving DecidableEq

/-- `BatchOperationResult` from `app/schemas/batch.py` (timestamps omitted). -/
structure BatchOperationResult where
  operation_id : String
  target_id : Nat
  operation_type : BatchOperationType
  status : BatchOperationStatus
  success : Bool
  error_message : Option String := none
  error_code : Option String := none
  before_state : Option EntityState := none
  after_state : Option EntityState := none
deriving DecidableEq

/-- `CompensationOperation` from `app/schemas/batch.py`; the
`compensation_data` dict `{target_id, before_state, after_state}` is embedded
as the three explicit fields. -/
structure CompensationOperation where
  original_operation_id : String
  compensation_type : String
  comp_target_id : Nat
  comp_before_state : Option EntityState
  comp_after_state : Option EntityState
  status : BatchOperationStatus := .pending
  error_message : Option String := none
deriving DecidableEq

/-- `SagaTransaction` from `app/schemas/batch.py` (timestamps omitted). -/
structure SagaTransaction where
  job_id : String
  status : BatchOperationStatus := .pending
  completed_operations : List String := []
  failed_operation_id : Option String := none
  compensation_operations : List CompensationOperation := []
  compensation_status : BatchOperationStatus := .pending
deriving DecidableEq

/-- `BatchRequest` from `app/schemas/batch.py` (scheduling and timeout fields
that the engine never reads are omitted). -/
structure BatchRequest where
  job_id : String
  job_name : String
  operations : List BatchOperationItem
  dry_run : Bool := false
  fail_fast : Bool := false
  parallel_execution : Bool := false
  enable_compensation : Bool := true
deriving DecidableEq

/-- `BatchJobResult` from `app/schemas/batch.py` (timing fields and the
human-readable summary strings omitted). -/
structure BatchJobResult where
  job_id : String
  job_name : String
  status : BatchJobStatus
  total_operations : Nat
  successful_operations : Nat
  failed_operations : Nat
  compensated_operations : Nat
  operation_results : List BatchOperationResult
  has_failures : Bool
  dry_run : Bool
deriving DecidableEq

/-- `BatchValidationError` from `app/schemas/batch.py`. -/
structure BatchValidationError where
  operation_id : String
  target_id : Nat
  error_code : String
  error_message : String
deriving DecidableEq

/-- `BatchValidationResult` from `app/schemas/batch.py`. -/
structure BatchValidationResult where
  is_valid : Bool
  errors : List BatchValidationError
  validated_operations : Nat
  invalid_operations : Nat
deriving DecidableEq

/-! ## Forward operation handlers (`SagaBatchProcessor._handle_*`).

Each handler receives the operation and the `dry_run` flag (the relevant
parts of the Python `OperationContext`) together with the store, and returns
either the updated store or a raised exception embedded as
`Except.error (error_code, error_message)` — `error_code` being
`type(e).__name__`, the string `_execute_single_operation` records. -/

/-- `_handle_booking_status_update`: parse `parameters["new_status"]` through
the `BookingStatus` constructor (raising `ValueError` on a bad value — this
happens before the dry-run check, as in the source), then on a real run
`UPDATE bookings SET status = new WHERE id = target`. -/
def handle_booking_status_update (op : BatchOperationItem) (dryRun : Bool) (db : DB) :
    Except (String × String) DB :=
  match parseBookingStatus (op.parameters.get "new_status") with
  | none => .error ("ValueError", "invalid BookingStatus value")
  | some new_status =>
    if dryRun then .ok db
    else .ok (db.updateBookings op.target_id (fun b => { b with status := new_status }))

/-- `_handle_booking_cancel`: on a real run
`UPDATE bookings SET status = CANCELLED, comments = f"Cancelled: {reason}"`.
The f-string replaces the whole `comments` column. -/
def handle_booking_cancel (op : BatchOperationItem) (dryRun : Bool) (db : DB) :
    Except (String × String) DB :=
  let reason := op.parameters.get "cancellation_reason"
  if dryRun then .ok db
  else .ok (db.updateBookings op.target_id (fun b =>
    { b with status := .cancelled, comments := some ("Cancelled: " ++ reason.pythonStr) }))

/-- `_handle_booking_set_dates`: on a real run
`UPDATE bookings SET check_in_date = p, check_out_date = q, is_open_dates = false`. -/
def handle_booking_set_dates (op : BatchOperationItem) (dryRun : Bool) (db : DB) :
    Except (String × String) DB :=
  let ci := (op.parameters.get "check_in_date").toDateVal
  let co := (op.parameters.get "check_out_date").toDateVal
  if dryRun then .ok db
  else .ok (db.updateBookings op.target_id (fun b =>
    { b with check_in_date := ci, check_out_date := co, is_open_dates := false }))

/-- `_handle_accommodation_status_update`: parse `parameters["new_status"]`,
then on a real run `UPDATE accommodations SET status = new WHERE id = target`
(the handler ignores the `new_condition` parameter). -/
def handle_accommodation_status_update (op : BatchOperationItem) (dryRun : Bool) (db : DB) :
    Except (String × String) DB :=
  match parseAccommodationStatus (op.parameters.get "new_status") with
  | none => .error ("ValueError", "invalid AccommodationStatus value")
  | some new_status =>
    if dryRun then .ok db
    else .ok (db.updateAccommodations op.target_id (fun a => { a with status := new_status }))

/-- The `operation_handlers` registry filled by `_register_default_handlers`:
exactly four operation types have a forward handler. -/
def operation_handlers (t : BatchOperationType) :
    Option (BatchOperationItem → Bool → DB → Except (String × String) DB) :=
  match t with
  | .booking_status_update => some handle_booking_status_update
  | .booking_cancel => some handle_booking_cancel
  | .booking_set_dates => some handle_booking_set_dates
  | .accommodation_status_update => some handle_accommodation_status_update
  | _ => none

/-- `_capture_entity_state`: read a projection of the target entity, or the
empty dict when the row does not exist or the type is not a handled one. -/
def capture_entity_state (op : BatchOperationItem) (db : DB) : EntityState :=
  match op.operation_type with
  | .booking_status_update | .booking_cancel | .booking_set_dates =>
    match db.findBooking op.target_id with
    | some b => .bookingState b.status b.comments b.check_in_date b.check_out_date b.is_open_dates
    | none => .emptyState
  | .accommodation_status_update =>
    match db.findAccommodation op.target_id with
    | some a => .accommodationState a.status a.condition
    | none => .emptyState
  | _ => .emptyState

/-- The `try` block of `_execute_single_operation`: look up the handler (a
missing handler raises `BatchProcessorError` *inside* this same `try`),
capture `before_state`, and run the handler. -/
def single_attempt (op : BatchOperationItem) (dryRun : Bool) (db : DB) :
    Except (String × String) (EntityState × DB) :=
  match operation_handlers op.operation_type with
  | none =>
    .error ("BatchProcessorError",
      "No handler found for operation type: " ++ op.operation_type.value)
  | some handler =>
    let before := capture_entity_state op db
    match handler op dryRun db with
    | .error e => .error e
    | .ok db1 => .ok (before, db1)

/-- `_execute_single_operation`: run the `try` block; any exception is caught
at this boundary and becomes a failed `BatchOperationResult` (which carries
no state snapshots, as in the source constructor), a success becomes a
completed result with its snapshots; `after_state` is skipped in dry-run. -/
def execute_single_operation (op : BatchOperationItem) (dryRun : Bool) (db : DB) :
    BatchOperationResult × DB :=
  match single_attempt op dryRun db with
  | .error (code, msg) =>
    ({ operation_id := op.operation_id, target_id := op.target_id,
       operation_type := op.operation_type, status := .failed, success := false,
       error_message := some msg, error_code := some code }, db)
  | .ok (before, db1) =>
    ({ operation_id := op.operation_id, target_id := op.target_id,
       operation_type := op.operation_type, status := .completed, success := true,
       before_state := some before,
       after_state := if dryRun then none else some (capture_entity_state op db1) }, db1)

/-! ## Execution strategies -/

/-- The loop body of `_execute_operations_sequential`: iterate the operations,
skipping the rest as soon as `fail_fast` holds and a failure is on record
(both the loop-top guard and the immediate `break` after a failed result). -/
def seq_go (failFast dryRun : Bool) :
    List BatchOperationItem → List BatchOperationResult → SagaTransaction → DB →
    List BatchOperationResult × SagaTransaction × DB
  | [], results, saga, db => (results, saga, db)
  | op :: rest, results, saga, db =>
    if failFast && results.any (fun r => !r.success) then
      (results, saga, db)
    else
      let rd := execute_single_operation op dryRun db
      let results1 := results ++ [rd.1]
      if rd.1.success then
        seq_go failFast dryRun rest results1
          { saga with completed_operations := saga.completed_operations ++ [op.operation_id] }
          rd.2
      else
        let saga1 := { saga with failed_operation_id := some op.operation_id }
        if failFast then (results1, saga1, rd.2)
        else seq_go failFast dryRun rest results1 saga1 rd.2

/-- `_execute_operations_sequential`. -/
def execute_operations_sequential (ops : List BatchOperationItem) (failFast dryRun : Bool)
    (saga : SagaTransaction) (db : DB) :
    List BatchOperationResult × SagaTransaction × DB :=
  seq_go failFast dryRun ops [] saga db

/-- The deterministic linearization of `_execute_operations_parallel` (see the
file header): every operation runs, results are collected in input order,
successful operation ids are appended to `completed_operations`. -/
def par_go (dryRun : Bool) :
    List BatchOperationItem → List BatchOperationResult → SagaTransaction → DB →
    List BatchOperationResult × SagaTransaction × DB
  | [], results, saga, db => (results, saga, db)
  | op :: rest, results, saga, db =>
    let rd := execute_single_operation op dryRun db
    let saga1 :=
      if rd.1.success then
        { saga with completed_operations := saga.completed_operations ++ [rd.1.operation_id] }
      else saga
    par_go dryRun rest (results ++ [rd.1]) saga1 rd.2

/-- `_execute_operations_parallel` (linearized). -/
def execute_operations_parallel (ops : List BatchOperationItem) (dryRun : Bool)
    (saga : SagaTransaction) (db : DB) :
    List BatchOperationResult × SagaTransaction × DB :=
  par_go dryRun ops [] saga db

/-- The strategy dispatch inside `execute_batch` (step 3 of the algorithm). -/
def run_operations (req : BatchRequest) (db : DB) :
    List BatchOperationResult × SagaTransaction × DB :=
  let saga0 : SagaTransaction := { job_id := req.job_id }
  if req.parallel_execution then
    execute_operations_parallel req.operations req.dry_run saga0 db
  else
    execute_operations_sequential req.operations req.fail_fast req.dry_run saga0 db

/-! ## Generic validation (`_validate_batch`, `_validate_entity_exists`) -/

/-- `_validate_entity_exists`: booking types resolve against `bookings`,
the accommodation type against `accommodations`, anything else is `False`. -/
def validate_entity_exists (op : BatchOperationItem) (db : DB) : Bool :=
  match op.operation_type with
  | .booking_status_update | .booking_cancel | .booking_set_dates =>
    (db.findBooking op.target_id).isSome
  | .accommodation_status_update =>
    (db.findAccommodation op.target_id).isSome
  | _ => false

/-- The errors `_validate_batch` appends for one operation: an empty
parameter dict short-circuits (`continue`) past the entity check. -/
def validate_operation_errors (db : DB) (op : BatchOperationItem) :
    List BatchValidationError :=
  if op.parameters = [] then
    [{ operation_id := op.operation_id, target_id := op.target_id,
       error_code := "MISSING_PARAMETERS",
       error_message := "Operation parameters are required" }]
  else if !validate_entity_exists op db then
    [{ operation_id := op.operation_id, target_id := op.target_id,
       error_code := "ENTITY_NOT_FOUND",
       error_message := "Target entity " ++ toString op.target_id ++ " not found" }]
  else []

/-- `_validate_batch`. -/
def validate_batch (req : BatchRequest) (db : DB) : BatchValidationResult :=
  let errors := req.operations.flatMap (validate_operation_errors db)
  { is_valid := errors.isEmpty, errors := errors,
    validated_operations := req.operations.length, invalid_operations := errors.length }

/-! ## Compensation (`_execute_compensation`, `_compensate_*`) -/

/-- Build one `CompensationOperation` from a successful result, exactly as the
loop body of `_execute_compensation` does. -/
def mk_compensation (r : BatchOperationResult) : CompensationOperation :=
  { original_operation_id := r.operation_id,
    compensation_type := "compensate_" ++ r.operation_type.value,
    comp_target_id := r.target_id,
    comp_before_state := r.before_state,
    comp_after_state := r.after_state }

/-- `_compensate_booking_status_update`: write `before_state["status"]` back;
a missing or empty `before_state` dict raises (`KeyError`/`TypeError`). -/
def compensate_booking_status_update (c : CompensationOperation) (db : DB) :
    Except String DB :=
  match c.comp_before_state with
  | some (.bookingState st _ _ _ _) =>
    .ok (db.updateBookings c.comp_target_id (fun b => { b with status := st }))
  | _ => .error "KeyError"

/-- `_compensate_booking_cancel`: restore `status` and `comments` from
`before_state`. -/
def compensate_booking_cancel (c : CompensationOperation) (db : DB) :
    Except String DB :=
  match c.comp_before_state with
  | some (.bookingState st cm _ _ _) =>
    .ok (db.updateBookings c.comp_target_id (fun b => { b with status := st, comments := cm }))
  | _ => .error "KeyError"

/-- `_compensate_booking_set_dates`: unconditionally
`SET check_in_date = NULL, check_out_date = NULL, is_open_dates = true` —
the captured `before_state` is not consulted. -/
def compensate_booking_set_dates (c : CompensationOperation) (db : DB) :
    Except String DB :=
  .ok (db.updateBookings c.comp_target_id (fun b =>
    { b with check_in_date := none, check_out_date := none, is_open_dates := true }))

/-- `_compensate_accommodation_status_update`: write `before_state["status"]`
back onto the accommodation. -/
def compensate_accommodation_status_update (c : CompensationOperation) (db : DB) :
    Except String DB :=
  match c.comp_before_state with
  | some (.accommodationState st _) =>
    .ok (db.updateAccommodations c.comp_target_id (fun a => { a with status := st }))
  | _ => .error "KeyError"

/-- The `compensation_handlers` registry. -/
def compensation_handlers (t : BatchOperationType) :
    Option (CompensationOperation → DB → Except String DB) :=
  match t with
  | .booking_status_update => some compensate_booking_status_update
  | .booking_cancel => some compensate_booking_cancel
  | .booking_set_dates => some compensate_booking_set_dates
  | .accommodation_status_update => some compensate_accommodation_status_update
  | _ => none

/-- Drop a pattern from the front of a character list, if it is there. -/
def dropPatChars : List Char → List Char → Option (List Char)
  | [], rest => some rest
  | _, [] => none
  | p :: ps, c :: cs => if p = c then dropPatChars ps cs else none

/-- The effect of Python's `s.replace("compensate_", "")` on the strings it
is applied to here: every `compensation_type` is built as
`"compensate_" + <operation type value>` and no type value contains
`"compensate_"` again, so replace-all deletes exactly the leading pattern
occurrence.  (Implemented on character lists so that it evaluates inside the
kernel; `String.replace` itself does not reduce there.) -/
def strip_compensate (s : String) : String :=
  match dropPatChars "compensate_".data s.data with
  | some rest => String.mk rest
  | none => s

/-- `_execute_compensation_operation`: recover the original operation type by
deleting the `compensate_` prefix (`str.replace`) and re-parsing it, then
dispatch to the compensation handler. -/
def execute_compensation_operation (c : CompensationOperation) (db : DB) :
    Except String DB :=
  match BatchOperationType.ofValue (strip_compensate c.compensation_type) with
  | none => .error "ValueError"
  | some t =>
    match compensation_handlers t with
    | none => .error ("No compensation handler for operation type: " ++ t.value)
    | some handler => handler c db

/-- The per-item loop of `_execute_compensation`: each compensation is
attempted; failures are recorded on the item and do not stop the rest. -/
def comp_go : List CompensationOperation → List CompensationOperation → DB →
    List CompensationOperation × DB
  | [], done, db => (done, db)
  | c :: rest, done, db =>
    match execute_compensation_operation c db with
    | .ok db1 => comp_go rest (done ++ [{ c with status := .completed }]) db1
    | .error msg =>
      comp_go rest (done ++ [{ c with status := .failed, error_message := some msg }]) db

/-- `_execute_compensation`: build one compensation per *successful* result,
walking the results in reverse, attempt them in that order, and mark the
saga's compensation pass completed. -/
def execute_compensation (saga : SagaTransaction) (results : List BatchOperationResult)
    (db : DB) : SagaTransaction × DB :=
  let comp_ops := ((results.filter (fun r => r.success)).reverse).map mk_compensation
  let processed := comp_go comp_ops [] db
  ({ saga with compensation_operations := processed.1,
               compensation_status := .completed }, processed.2)

/-! ## Dry run and the batch entry point -/

/-- The loop of `_execute_dry_run`: every operation through the single
executor with `dry_run=True`, in list order, regardless of flags. -/
def dry_go : List BatchOperationItem → List BatchOperationResult → DB →
    List BatchOperationResult × DB
  | [], results, db => (results, db)
  | op :: rest, results, db =>
    let rd := execute_single_operation op true db
    dry_go rest (results ++ [rd.1]) rd.2

/-- `_execute_dry_run`: run everything in dry-run mode and aggregate,
reporting every operation as successful (`successful_operations` is set to
`len(operation_results)` and `failed_operations` to 0 in the source). -/
def execute_dry_run (req : BatchRequest) (db : DB) : BatchJobResult × DB :=
  let t := dry_go req.operations [] db
  ({ job_id := req.job_id,
     job_name := "DRY RUN: " ++ req.job_name,
     status := .completed,
     total_operations := req.operations.length,
     successful_operations := t.1.length,
     failed_operations := 0,
     compensated_operations := 0,
     operation_results := t.1,
     has_failures := false,
     dry_run := true }, t.2)

deriving instance DecidableEq for Except

/-- The observable outcome of `execute_batch`: the returned job result or the
raised `BatchProcessorError`, together with the final store and the saga
record the run produced. -/
structure BatchExecution where
  outcome : Except String BatchJobResult
  saga : SagaTransaction
  db : DB
deriving DecidableEq

/-- `SagaBatchProcessor.execute_batch`.

Control flow of the source, in order: the dry-run short-circuit; generic
validation (raising `BatchProcessorError` on failure); the sequential or
parallel strategy; the tally; the fail-fast compensation pass (not gated on
`enable_compensation`); the saga status update; the final `BatchJobResult`
with its status ternary.  The `except` branch of the source (an unexpected
exception escaping the strategies — the only place `enable_compensation` is
consulted) has no counterpart in this pure embedding, because the embedded
strategies are total: every handler exception is already converted to a
failed result at the single-operation boundary. -/
def execute_batch (req : BatchRequest) (db : DB) : BatchExecution :=
  let saga0 : SagaTransaction := { job_id := req.job_id }
  if req.dry_run then
    let rd := execute_dry_run req db
    { outcome := .ok rd.1, saga := saga0, db := rd.2 }
  else
    let validation := validate_batch req db
    if !validation.is_valid then
      { outcome := .error "Batch validation failed", saga := saga0, db := db }
    else
      let t := run_operations req db
      let results := t.1
      let successful := (results.filter (fun r => r.success)).length
      let failed := (results.filter (fun r => !r.success)).length
      let after :=
        if req.fail_fast && failed > 0 then
          let cd := execute_compensation t.2.1 results t.2.2
          ({ cd.1 with status := BatchOperationStatus.failed }, cd.2)
        else
          ({ t.2.1 with status :=
              if failed = 0 then BatchOperationStatus.completed
              else BatchOperationStatus.partly_completed }, t.2.2)
      { outcome := .ok
          { job_id := req.job_id,
            job_name := req.job_name,
            status :=
              if failed = 0 then BatchJobStatus.completed
              else if successful = 0 then BatchJobStatus.failed
              else BatchJobStatus.completed,
            total_operations := req.operations.length,
            successful_operations := successful,
            failed_operations := failed,
            compensated_operations := after.1.compensation_operations.length,
            operation_results := results,
            has_failures := failed > 0,
            dry_run := req.dry_run },
        saga := after.1,
        db := after.2 }

/-! ## Availability checking (`BookingService.check_availability`) and the
set-dates validation of `BatchOperationService`. -/

/-- The second element of the `conditions` list in `check_availability` is the
Python expression `not Booking.is_open_dates`.  `Booking.is_open_dates` at
class level is an ORM attribute object; it defines no `__bool__`, so it is
truthy and the expression evaluates to the constant `False` before SQLAlchemy
ever sees it (only comparison *expressions* such as `Booking.id == 5` raise on
truth-testing; the bare attribute does not).  `and_` then receives a literal
Python `False`, which it coerces to the SQL constant false. -/
def not_is_open_dates_clause : Bool := false

/-- The row predicate denoted by the `conditions` list of
`BookingService.check_availability`: accommodation match, the collapsed
`not Booking.is_open_dates` clause, a CONFIRMED/CHECKED_IN status, the
half-open overlap test (`NULL` dates satisfy no SQL comparison), and — only
when `exclude_booking_id` is truthy, i.e. a non-zero id — the exclusion. -/
def check_availability_matches (accommodation_id check_in check_out : Nat)
    (exclude_booking_id : Option Nat) (b : Booking) : Bool :=
  b.accommodation_id == accommodation_id
  && not_is_open_dates_clause
  && (b.status == BookingStatus.confirmed || b.status == BookingStatus.checked_in)
  && (match b.check_in_date, b.check_out_date with
      | some bi, some bo => decide (bi < check_out) && decide (check_in < bo)
      | _, _ => false)
  && (match exclude_booking_id with
      | some e => if e = 0 then true else b.id != e
      | none => true)

/-- `BookingService.check_availability`: count the rows matching the
conditions and report availability iff the count is zero. -/
def check_availability (db : DB) (accommodation_id check_in check_out : Nat)
    (exclude_booking_id : Option Nat) : Bool :=
  (db.bookings.filter
    (check_availability_matches accommodation_id check_in check_out exclude_booking_id)).length == 0

/-- The availability check as the specification words it (reference
definition for the refinement comparison, not translated from the code):
“no overlapping CONFIRMED/CHECKED_IN booking may exist for that accommodation
excluding the booking itself (half-open interval overlap test: two ranges
`[a,b)`/`[c,d)` conflict iff `a<d and c<b`)”, restricted to bookings with
assigned dates. -/
def check_availability_spec (db : DB) (accommodation_id check_in check_out : Nat)
    (exclude_booking_id : Option Nat) : Bool :=
  (db.bookings.filter (fun b =>
    b.accommodation_id == accommodation_id
    && !b.is_open_dates
    && (b.status == BookingStatus.confirmed || b.status == BookingStatus.checked_in)
    && (match b.check_in_date, b.check_out_date with
        | some bi, some bo => decide (bi < check_out) && decide (check_in < bo)
        | _, _ => false)
    && (match exclude_booking_id with
        | some e => b.id != e
        | none => true))).length == 0

/-- One entry of `booking_date_assignments`. -/
structure DateAssignment where
  booking_id : Nat
  check_in_date : Nat
  check_out_date : Nat
deriving DecidableEq

/-- The error strings `_validate_date_assignments` appends for one
assignment (each branch `continue`s past the rest). -/
def validate_date_assignment_errors (db : DB) (validate_availability : Bool)
    (a : DateAssignment) : List String :=
  match db.findBooking a.booking_id with
  | none => ["Booking " ++ toString a.booking_id ++ " not found"]
  | some b =>
    if !b.is_open_dates then
      ["Booking " ++ toString a.booking_id ++ " is not an open-dates booking"]
    else if a.check_in_date ≥ a.check_out_date then
      ["Invalid date range for booking " ++ toString a.booking_id]
    else if validate_availability
        && !check_availability db b.accommodation_id a.check_in_date a.check_out_date
             (some a.booking_id) then
      ["Accommodation not available for booking " ++ toString a.booking_id]
    else []

/-- `BatchOperationService._validate_date_assignments`. -/
def validate_date_assignments (db : DB) (assignments : List DateAssignment)
    (validate_availability : Bool) : List String :=
  assignments.flatMap (validate_date_assignment_errors db validate_availability)

/-- The `BatchRequest` that `bulk_set_booking_dates` builds: one
`booking_set_dates` item per assignment, `fail_fast=True`,
`enable_compensation=True`. -/
def set_dates_request (assignments : List DateAssignment) (validate_availability : Bool)
    (dry_run : Bool) : BatchRequest :=
  { job_id := "set-dates-job",
    job_name := "Bulk Date Assignment",
    operations := assignments.map (fun a =>
      { operation_id := "set-dates-" ++ toString a.booking_id,
        target_id := a.booking_id,
        operation_type := .booking_set_dates,
        parameters :=
          [("check_in_date", PValue.vnat a.check_in_date),
           ("check_out_date", PValue.vnat a.check_out_date),
           ("validate_availability", PValue.vbool validate_availability)] }),
    dry_run := dry_run,
    fail_fast := true,
    enable_compensation := true }

/-- `BatchOperationService.bulk_set_booking_dates`: run the date-assignment
validation, raise `HTTPException(400)` when it reports errors, otherwise
build the request and delegate to the processor. -/
def bulk_set_booking_dates (db : DB) (assignments : List DateAssignment)
    (validate_availability : Bool) (dry_run : Bool) : Except String BatchExecution :=
  let errors := validate_date_assignments db assignments validate_availability
  if errors.isEmpty then
    .ok (execute_batch (set_dates_request assignments validate_availability dry_run) db)
  else
    .error "HTTPException 400: Validation errors"

/-- The store produced by attempting one compensation operation: the
handler's output, or the unchanged store when the attempt raises. -/
def comp_db (c : CompensationOperation) (db : DB) : DB :=
  match execute_compensation_operation c db with
  | .ok db1 => db1
  | .error _ => db

/-- Folding the compensations of the successful results, most recent first:
the store `_execute_compensation` leaves behind. -/
def comp_restore_list (results : List BatchOperationResult) (db : DB) : DB :=
  (((results.filter (fun r => r.success)).reverse).map mk_compensation).foldl
    (fun d c => comp_db c d) db

/-- A successful set-dates result whose captured `before_state` shows an
open-dates booking with `NULL` dates (the state the set-dates compensation
handler unconditionally writes back).  Other operation types and failed
results satisfy this vacuously. -/
def set_dates_open_before (r : BatchOperationResult) : Bool :=
  !(r.operation_type == BatchOperationType.booking_set_dates) || !r.success ||
  (match r.before_state with
   | some (.bookingState _ _ ci co opn) => ci == none && co == none && opn
   | _ => false)

/-- Total projection of a `BatchExecution` outcome onto its job result
(a sentinel for the error case). -/
def jobOf (e : BatchExecution) : BatchJobResult :=
  match e.outcome with
  | .ok j => j
  | .error _ =>
    { job_id := "", job_name := "", status := .failed, total_operations := 0,
      successful_operations := 0, failed_operations := 0, compensated_operations := 0,
      operation_results := [], has_failures := false, dry_run := false }

/-! ## Concrete fixtures for the claim witnesses and counterexamples -/

/-- Shorthand for a `bookings` row. -/
def mkBooking (i aid : Nat) (st : BookingStatus) (cm : Option String)
    (ci co : Option Nat) (opn : Bool) : Booking :=
  { id := i, accommodation_id := aid, check_in_date := ci, check_out_date := co,
    is_open_dates := opn, status := st, comments := cm }

/-- A `booking_status_update` item carrying a raw status string. -/
def statusOp (oid : String) (t : Nat) (s : String) : BatchOperationItem :=
  { operation_id := oid, target_id := t, operation_type := .booking_status_update,
    parameters := [("new_status", .vstr s)] }

/-- A `booking_cancel` item. -/
def cancelOp (oid : String) (t : Nat) (reason : String) : BatchOperationItem :=
  { operation_id := oid, target_id := t, operation_type := .booking_cancel,
    parameters := [("cancellation_reason", .vstr reason)] }

def c1_db : DB :=
  { bookings := [mkBooking 1 7 .pending none none none true,
                 mkBooking 2 7 .pending none none none true,
                 mkBooking 3 7 .pending none none none true],
    accommodations := [] }

/-- Three confirmations that succeed in order A, B, C, then a failing update. -/
def c1_req : BatchRequest :=
  { job_id := "job-c1", job_name := "c1",
    operations := [statusOp "A" 1 "confirmed", statusOp "B" 2 "confirmed",
                   statusOp "C" 3 "confirmed", statusOp "D" 1 "bogus"],
    fail_fast := true }

/-- Booking 1 already has assigned dates `[10,20)` and is not open-dates. -/
def c2_db : DB :=
  { bookings := [mkBooking 1 7 .confirmed none (some 10) (some 20) false,
                 mkBooking 2 7 .pending none none none true],
    accommodations := [] }

def c2_set_dates_op : BatchOperationItem :=
  { operation_id := "S1", target_id := 1, operation_type := .booking_set_dates,
    parameters := [("check_in_date", .vnat 30), ("check_out_date", .vnat 40)] }

/-- Set dates on booking 1 (succeeds), then fail on booking 2 → compensation. -/
def c2_req : BatchRequest :=
  { job_id := "job-c2", job_name := "c2",
    operations := [c2_set_dates_op, statusOp "S2" 2 "bogus"],
    fail_fast := true }

/-- Same operations, but booking 1 starts as a genuine open-dates booking. -/
def c2w_db : DB :=
  { bookings := [mkBooking 1 7 .confirmed (some "note") none none true,
                 mkBooking 2 7 .pending none none none true],
    accommodations := [] }

def c4_db : DB :=
  { bookings := [mkBooking 1 7 .pending none none none true,
                 mkBooking 2 7 .pending none none none true],
    accommodations := [] }

/-- Three cancellations, the middle one aimed at nonexistent booking 999. -/
def c4_req : BatchRequest :=
  { job_id := "job-c4", job_name := "c4",
    operations := [cancelOp "K1" 1 "r", cancelOp "K2" 999 "r", cancelOp "K3" 2 "r"] }

def c5_db : DB :=
  { bookings := [mkBooking 1 7 .pending none none none true,
                 mkBooking 2 7 .pending none none none true],
    accommodations := [] }

/-- A mixed batch (no fail-fast): one success, one execution failure. -/
def c5_req : BatchRequest :=
  { job_id := "job-c5", job_name := "c5",
    operations := [statusOp "M1" 1 "confirmed", statusOp "M2" 2 "bogus"] }

def c5_job : BatchJobResult := jobOf (execute_batch c5_req c5_db)

def c6_op : BatchOperationItem :=
  { operation_id := "U", target_id := 1, operation_type := .client_update,
    parameters := [("x", .vnone)] }

def c6_db : DB :=
  { bookings := [mkBooking 1 7 .pending none none none true], accommodations := [] }

/-- A batch whose only operation has a type with no registered handler. -/
def c6_req : BatchRequest :=
  { job_id := "job-c6", job_name := "c6", operations := [c6_op] }

def c7_db : DB :=
  { bookings := [mkBooking 1 7 .pending none none none true], accommodations := [] }

/-- A dry-run batch that would fail generic validation (nonexistent target,
unregistered type with empty parameters). -/
def c7_req : BatchRequest :=
  { job_id := "job-c7", job_name := "c7",
    operations := [statusOp "P1" 1 "confirmed", statusOp "P2" 999 "confirmed",
                   { operation_id := "P3", target_id := 1,
                     operation_type := .client_update, parameters := [] }],
    dry_run := true }

/-- Booking 2 is CONFIRMED on accommodation 7 over `[10,20)`; booking 1 is an
open-dates booking on the same accommodation. -/
def c8_db : DB :=
  { bookings := [mkBooking 1 7 .pending none none none true,
                 mkBooking 2 7 .confirmed none (some 10) (some 20) false],
    accommodations := [] }

/-- Assign `[15,25)` to booking 1 — overlapping booking 2's `[10,20)`. -/
def c8_overlap : DateAssignment :=
  { booking_id := 1, check_in_date := 15, check_out_date := 25 }

def c9_db : DB :=
  { bookings := [mkBooking 5 7 .confirmed (some "VIP guest") (some 1) (some 2) false],
    accommodations := [] }

def c9_op : BatchOperationItem := cancelOp "X" 5 "weather"

def c10_db : DB :=
  { bookings := [mkBooking 1 7 .pending none none none true,
                 mkBooking 2 7 .pending none none none true],
    accommodations := [] }

/-- Fail-fast batch with compensation disabled: one success, one failure. -/
def c10_req : BatchRequest :=
  { job_id := "job-c10", job_name := "c10",
    operations := [statusOp "N1" 1 "confirmed", statusOp "N2" 2 "bogus"],
    fail_fast := true, enable_compensation := false }

/-! ## Generic list lemmas about keyed row updates -/

theorem map_if_eq_self {α : Type} (l : List α) (idf : α → Nat) (t : Nat) (f : α → α)
    (h : ∀ a ∈ l, idf a = t → f a = a) :
    l.map (fun a => if idf a == t then f a else a) = l := by
  induction l with
  | nil => rfl
  | cons x xs ih =>
    simp only [List.map_cons, List.cons.injEq]
    constructor
    · by_cases hx : idf x = t
      · simp [hx, h x (by simp) hx]
      · simp [hx]
    · exact ih (fun a ha hat => h a (by simp [ha]) hat)

theorem nodup_find_unique {α : Type} (l : List α) (idf : α → Nat) (t : Nat) (b0 : α)
    (hn : (l.map idf).Nodup) (hf : l.find? (fun a => idf a == t) = some b0) :
    ∀ a ∈ l, idf a = t → a = b0 := by
  induction l with
  | nil => intro a ha; simp at ha
  | cons x xs ih =>
    intro a ha hat
    simp only [List.map_cons, List.nodup_cons] at hn
    by_cases hx : idf x = t
    · rw [List.find?_cons_of_pos _ (by simp [hx])] at hf
      cases hf
      rcases List.mem_cons.1 ha with rfl | hmem
      · rfl
      · exfalso
        have h2 : idf a ∈ xs.map idf := List.mem_map_of_mem idf hmem
        rw [hat, ← hx] at h2
        exact hn.1 h2
    · rw [List.find?_cons_of_neg _ (by simp [hx])] at hf
      rcases List.mem_cons.1 ha with rfl | hmem
      · exact absurd hat hx
      · exact ih hn.2 hf a hmem hat

theorem map_map_if {α : Type} (l : List α) (idf : α → Nat) (t : Nat) (f g : α → α)
    (hf : ∀ a, idf (f a) = idf a) :
    (l.map (fun a => if idf a == t then f a else a)).map
        (fun a => if idf a == t then g a else a)
      = l.map (fun a => if idf a == t then g (f a) else a) := by
  rw [List.map_map]
  apply List.map_congr_left
  intro a _
  by_cases ha : idf a = t
  · simp [Function.comp, ha, hf]
  · simp [Function.comp, ha]

theorem map_if_id_map {α : Type} (l : List α) (idf : α → Nat) (t : Nat) (f : α → α)
    (hf : ∀ a, idf (f a) = idf a) :
    (l.map (fun a => if idf a == t then f a else a)).map idf = l.map idf := by
  rw [List.map_map]
  apply List.map_congr_left
  intro a _
  by_cases ha : idf a = t
  · simp [Function.comp, ha, hf]
  · simp [Function.comp, ha]

/-! ## Store-update lemmas -/

theorem updateBookings_no_match (db : DB) (t : Nat) (f : Booking → Booking)
    (h : db.findBooking t = none) : db.updateBookings t f = db := by
  have h' := List.find?_eq_none.1 h
  unfold DB.updateBookings
  rw [map_if_eq_self db.bookings Booking.id t f
    (fun a ha hat => absurd (by simp [hat]) (h' a ha))]

theorem updateBookings_restore (db : DB) (t : Nat) (f : Booking → Booking) (b0 : Booking)
    (hn : (db.bookings.map Booking.id).Nodup)
    (hf : db.findBooking t = some b0) (hb : f b0 = b0) :
    db.updateBookings t f = db := by
  unfold DB.updateBookings
  rw [map_if_eq_self db.bookings Booking.id t f
    (fun a ha hat => by
      rw [nodup_find_unique db.bookings Booking.id t b0 hn hf a ha hat]; exact hb)]

theorem updateBookings_comp (db : DB) (t : Nat) (f g : Booking → Booking)
    (hf : ∀ b, (f b).id = b.id) :
    (db.updateBookings t f).updateBookings t g
      = db.updateBookings t (fun b => g (f b)) := by
  unfold DB.updateBookings
  simp only
  rw [map_map_if db.bookings Booking.id t f g hf]

theorem updateBookings_ids (db : DB) (t : Nat) (f : Booking → Booking)
    (hf : ∀ b, (f b).id = b.id) :
    (db.updateBookings t f).bookings.map Booking.id = db.bookings.map Booking.id :=
  map_if_id_map db.bookings Booking.id t f hf

theorem updateAccommodations_no_match (db : DB) (t : Nat) (f : Accommodation → Accommodation)
    (h : db.findAccommodation t = none) : db.updateAccommodations t f = db := by
  have h' := List.find?_eq_none.1 h
  unfold DB.updateAccommodations
  rw [map_if_eq_self db.accommodations Accommodation.id t f
    (fun a ha hat => absurd (by simp [hat]) (h' a ha))]

theorem updateAccommodations_restore (db : DB) (t : Nat) (f : Accommodation → Accommodation)
    (a0 : Accommodation)
    (hn : (db.accommodations.map Accommodation.id).Nodup)
    (hf : db.findAccommodation t = some a0) (hb : f a0 = a0) :
    db.updateAccommodations t f = db := by
  unfold DB.updateAccommodations
  rw [map_if_eq_self db.accommodations Accommodation.id t f
    (fun a ha hat => by
      rw [nodup_find_unique db.accommodations Accommodation.id t a0 hn hf a ha hat]; exact hb)]

theorem updateAccommodations_comp (db : DB) (t : Nat) (f g : Accommodation → Accommodation)
    (hf : ∀ a, (f a).id = a.id) :
    (db.updateAccommodations t f).updateAccommodations t g
      = db.updateAccommodations t (fun a => g (f a)) := by
  unfold DB.updateAccommodations
  simp only
  rw [map_map_if db.accommodations Accommodation.id t f g hf]

theorem updateAccommodations_ids (db : DB) (t : Nat) (f : Accommodation → Accommodation)
    (hf : ∀ a, (f a).id = a.id) :
    (db.updateAccommodations t f).accommodations.map Accommodation.id
      = db.accommodations.map Accommodation.id :=
  map_if_id_map db.accommodations Accommodation.id t f hf

theorem updateBookings_accommodations (db : DB) (t : Nat) (f : Booking → Booking) :
    (db.updateBookings t f).accommodations = db.accommodations := rfl

theorem updateAccommodations_bookings (db : DB) (t : Nat) (f : Accommodation → Accommodation) :
    (db.updateAccommodations t f).bookings = db.bookings := rfl

theorem updateBookings_findAccommodation (db : DB) (t : Nat) (f : Booking → Booking) (i : Nat) :
    (db.updateBookings t f).findAccommodation i = db.findAccommodation i := rfl

theorem updateAccommodations_findBooking (db : DB) (t : Nat)
    (f : Accommodation → Accommodation) (i : Nat) :
    (db.updateAccommodations t f).findBooking i = db.findBooking i := rfl

/-! ## Compensation-pass lemmas -/

/-- Round trip: stripping the `compensate_` prefix from a constructed
compensation type recovers the original operation type. -/
theorem ofValue_strip (t : BatchOperationType) :
    BatchOperationType.ofValue (strip_compensate ("compensate_" ++ t.value)) = some t := by
  cases t <;> rfl

theorem comp_go_db (l done : List CompensationOperation) (db : DB) :
    (comp_go l done db).2 = l.foldl (fun d c => comp_db c d) db := by
  induction l generalizing done db with
  | nil => rfl
  | cons c rest ih =>
    simp only [comp_go, List.foldl_cons]
    cases hc : execute_compensation_operation c db with
    | ok db1 => simp only [comp_db, hc]; exact ih _ _
    | error m => simp only [comp_db, hc]; exact ih _ _

theorem comp_go_fst (l done : List CompensationOperation) (db : DB) :
    (comp_go l done db).1.map (fun c => c.original_operation_id)
        = done.map (fun c => c.original_operation_id)
          ++ l.map (fun c => c.original_operation_id)
      ∧ ∀ c ∈ (comp_go l done db).1,
          c ∈ done ∨ c.status = .completed ∨ c.status = .failed := by
  induction l generalizing done db with
  | nil => exact ⟨by simp [comp_go], fun c hc => Or.inl hc⟩
  | cons c rest ih =>
    simp only [comp_go]
    cases hc : execute_compensation_operation c db with
    | ok db1 =>
      obtain ⟨h1, h2⟩ := ih (done ++ [{ c with status := .completed }]) db1
      refine ⟨by simpa using h1, fun x hx => ?_⟩
      rcases h2 x hx with hmem | hst
      · rcases List.mem_append.1 hmem with hd | hsing
        · exact Or.inl hd
        · simp at hsing; subst hsing; exact Or.inr (Or.inl rfl)
      · exact Or.inr hst
    | error m =>
      obtain ⟨h1, h2⟩ :=
        ih (done ++ [{ c with status := .failed, error_message := some m }]) db
      refine ⟨by simpa using h1, fun x hx => ?_⟩
      rcases h2 x hx with hmem | hst
      · rcases List.mem_append.1 hmem with hd | hsing
        · exact Or.inl hd
        · simp at hsing; subst hsing; exact Or.inr (Or.inr rfl)
      · exact Or.inr hst

theorem execute_compensation_db (saga : SagaTransaction)
    (results : List BatchOperationResult) (db : DB) :
    (execute_compensation saga results db).2 = comp_restore_list results db := by
  simp only [execute_compensation, comp_restore_list, comp_go_db]

theorem execute_compensation_ops (saga : SagaTransaction)
    (results : List BatchOperationResult) (db : DB) :
    (execute_compensation saga results db).1.compensation_operations.map
        (fun c => c.original_operation_id)
      = ((results.filter (fun r => r.success)).map (fun r => r.operation_id)).reverse
    ∧ (∀ c ∈ (execute_compensation saga results db).1.compensation_operations,
        c.status = .completed ∨ c.status = .failed)
    ∧ (execute_compensation saga results db).1.compensation_status = .completed := by
  obtain ⟨h1, h2⟩ :=
    comp_go_fst (((results.filter (fun r => r.success)).reverse).map mk_compensation) [] db
  simp only [execute_compensation]
  refine ⟨?_, fun c hc => ?_, trivial⟩
  · rw [h1]
    simp [List.map_map, mk_compensation, Function.comp, List.map_reverse]
  · rcases h2 c hc with hmem | hst
    · simp at hmem
    · exact hst

/-! ## Single-operation lemmas -/

theorem exec_of_attempt_error (op : BatchOperationItem) (d : Bool) (db : DB)
    (code msg : String) (h : single_attempt op d db = .error (code, msg)) :
    execute_single_operation op d db =
      ({ operation_id := op.operation_id, target_id := op.target_id,
         operation_type := op.operation_type, status := .failed, success := false,
         error_message := some msg, error_code := some code }, db) := by
  simp [execute_single_operation, h]

theorem exec_of_attempt_ok (op : BatchOperationItem) (d : Bool) (db : DB)
    (before : EntityState) (db1 : DB) (h : single_attempt op d db = .ok (before, db1)) :
    execute_single_operation op d db =
      ({ operation_id := op.operation_id, target_id := op.target_id,
         operation_type := op.operation_type, status := .completed, success := true,
         before_state := some before,
         after_state := if d then none else some (capture_entity_state op db1) }, db1) := by
  simp [execute_single_operation, h]

theorem exec_fail_db (op : BatchOperationItem) (d : Bool) (db : DB)
    (h : (execute_single_operation op d db).1.success = false) :
    (execute_single_operation op d db).2 = db := by
  cases hA : single_attempt op d db with
  | error e =>
    obtain ⟨code, msg⟩ := e
    rw [exec_of_attempt_error op d db code msg hA]
  | ok p =>
    obtain ⟨before, db1⟩ := p
    rw [exec_of_attempt_ok op d db before db1 hA] at h
    simp at h

theorem exec_opid (op : BatchOperationItem) (d : Bool) (db : DB) :
    (execute_single_operation op d db).1.operation_id = op.operation_id := by
  cases hA : single_attempt op d db with
  | error e =>
    obtain ⟨code, msg⟩ := e
    rw [exec_of_attempt_error op d db code msg hA]
  | ok p =>
    obtain ⟨before, db1⟩ := p
    rw [exec_of_attempt_ok op d db before db1 hA]

/-- A successful real-run attempt changes neither table's id column. -/
theorem attempt_ids (op : BatchOperationItem) (db : DB) (before : EntityState) (db1 : DB)
    (h : single_attempt op false db = .ok (before, db1)) :
    db1.bookings.map Booking.id = db.bookings.map Booking.id
      ∧ db1.accommodations.map Accommodation.id = db.accommodations.map Accommodation.id := by
  cases hot : op.operation_type with
  | booking_status_update =>
    simp only [single_attempt, hot, operation_handlers, handle_booking_status_update] at h
    cases hp : parseBookingStatus (op.parameters.get "new_status") <;> rw [hp] at h
    · simp at h
    · simp only [if_neg Bool.false_ne_true, Except.ok.injEq, Prod.mk.injEq] at h
      rw [← h.2]
      exact ⟨updateBookings_ids db op.target_id _ (fun b => rfl), rfl⟩
  | booking_cancel =>
    simp only [single_attempt, hot, operation_handlers, handle_booking_cancel] at h
    simp only [if_neg Bool.false_ne_true, Except.ok.injEq, Prod.mk.injEq] at h
    rw [← h.2]
    exact ⟨updateBookings_ids db op.target_id _ (fun b => rfl), rfl⟩
  | booking_set_dates =>
    simp only [single_attempt, hot, operation_handlers, handle_booking_set_dates] at h
    simp only [if_neg Bool.false_ne_true, Except.ok.injEq, Prod.mk.injEq] at h
    rw [← h.2]
    exact ⟨updateBookings_ids db op.target_id _ (fun b => rfl), rfl⟩
  | accommodation_status_update =>
    simp only [single_attempt, hot, operation_handlers,
      handle_accommodation_status_update] at h
    cases hp : parseAccommodationStatus (op.parameters.get "new_status") <;> rw [hp] at h
    · simp at h
    · simp only [if_neg Bool.false_ne_true, Except.ok.injEq, Prod.mk.injEq] at h
      rw [← h.2]
      exact ⟨rfl, updateAccommodations_ids db op.target_id _ (fun a => rfl)⟩
  | booking_payment_add => simp [single_attempt, hot, operation_handlers] at h
  | client_update => simp [single_attempt, hot, operation_handlers] at h
  | inventory_assign => simp [single_attempt, hot, operation_handlers] at h
  | custom_item_add => simp [single_attempt, hot, operation_handlers] at h

/-- A dry-run attempt never changes the store. -/
theorem attempt_dry (op : BatchOperationItem) (db : DB) (before : EntityState) (db1 : DB)
    (h : single_attempt op true db = .ok (before, db1)) : db1 = db := by
  cases hot : op.operation_type with
  | booking_status_update =>
    simp only [single_attempt, hot, operation_handlers, handle_booking_status_update] at h
    cases hp : parseBookingStatus (op.parameters.get "new_status") <;> rw [hp] at h
    · simp at h
    · simp at h
      exact h.2.symm
  | booking_cancel =>
    simp only [single_attempt, hot, operation_handlers, handle_booking_cancel] at h
    simp at h
    exact h.2.symm
  | booking_set_dates =>
    simp only [single_attempt, hot, operation_handlers, handle_booking_set_dates] at h
    simp at h
    exact h.2.symm
  | accommodation_status_update =>
    simp only [single_attempt, hot, operation_handlers,
      handle_accommodation_status_update] at h
    cases hp : parseAccommodationStatus (op.parameters.get "new_status") <;> rw [hp] at h
    · simp at h
    · simp at h
      exact h.2.symm
  | booking_payment_add => simp [single_attempt, hot, operation_handlers] at h
  | client_update => simp [single_attempt, hot, operation_handlers] at h
  | inventory_assign => simp [single_attempt, hot, operation_handlers] at h
  | custom_item_add => simp [single_attempt, hot, operation_handlers] at h

/-! ## Per-operation compensation round-trip lemmas -/

theorem comp_step_status (op : BatchOperationItem) (db : DB)
    (hot : op.operation_type = .booking_status_update)
    (hnb : (db.bookings.map Booking.id).Nodup)
    (hs : (execute_single_operation op false db).1.success = true) :
    comp_db (mk_compensation (execute_single_operation op false db).1)
      (execute_single_operation op false db).2 = db := by
  cases hp : parseBookingStatus (op.parameters.get "new_status") with
  | none =>
    exfalso
    have hA : single_attempt op false db
        = .error ("ValueError", "invalid BookingStatus value") := by
      simp [single_attempt, hot, operation_handlers, handle_booking_status_update, hp]
    rw [exec_of_attempt_error op false db _ _ hA] at hs
    simp at hs
  | some st =>
    have hA : single_attempt op false db
        = .ok (capture_entity_state op db,
               db.updateBookings op.target_id (fun b => { b with status := st })) := by
      simp [single_attempt, hot, operation_handlers, handle_booking_status_update, hp]
    rw [exec_of_attempt_ok op false db _ _ hA]
    cases hfb : db.findBooking op.target_id with
    | none =>
      have hcap : capture_entity_state op db = .emptyState := by
        simp [capture_entity_state, hot, hfb]
      simp only [comp_db, mk_compensation, execute_compensation_operation, hot, hcap,
        ofValue_strip, compensation_handlers, compensate_booking_status_update]
      exact updateBookings_no_match db op.target_id _ hfb
    | some b0 =>
      have hcap : capture_entity_state op db
          = .bookingState b0.status b0.comments b0.check_in_date b0.check_out_date
              b0.is_open_dates := by
        simp [capture_entity_state, hot, hfb]
      simp only [comp_db, mk_compensation, execute_compensation_operation, hot, hcap,
        ofValue_strip, compensation_handlers, compensate_booking_status_update]
      rw [updateBookings_comp db op.target_id (fun b => { b with status := st })
        (fun b => { b with status := b0.status }) (fun b => rfl)]
      exact updateBookings_restore db op.target_id _ b0 hnb hfb rfl

theorem comp_step_cancel (op : BatchOperationItem) (db : DB)
    (hot : op.operation_type = .booking_cancel)
    (hnb : (db.bookings.map Booking.id).Nodup)
    (_hs : (execute_single_operation op false db).1.success = true) :
    comp_db (mk_compensation (execute_single_operation op false db).1)
      (execute_single_operation op false db).2 = db := by
  have hA : single_attempt op false db
      = .ok (capture_entity_state op db,
             db.updateBookings op.target_id (fun b =>
               { b with status := BookingStatus.cancelled, comments := some ("Cancelled: " ++ (op.parameters.get "cancellation_reason").pythonStr) })) := by
    simp [single_attempt, hot, operation_handlers, handle_booking_cancel]
  rw [exec_of_attempt_ok op false db _ _ hA]
  cases hfb : db.findBooking op.target_id with
  | none =>
    have hcap : capture_entity_state op db = .emptyState := by
      simp [capture_entity_state, hot, hfb]
    simp only [comp_db, mk_compensation, execute_compensation_operation, hot, hcap,
      ofValue_strip, compensation_handlers, compensate_booking_cancel]
    exact updateBookings_no_match db op.target_id _ hfb
  | some b0 =>
    have hcap : capture_entity_state op db
        = .bookingState b0.status b0.comments b0.check_in_date b0.check_out_date
            b0.is_open_dates := by
      simp [capture_entity_state, hot, hfb]
    simp only [comp_db, mk_compensation, execute_compensation_operation, hot, hcap,
      ofValue_strip, compensation_handlers, compensate_booking_cancel]
    rw [updateBookings_comp db op.target_id
      (fun b => { b with status := BookingStatus.cancelled, comments := some ("Cancelled: " ++ (op.parameters.get "cancellation_reason").pythonStr) })
      (fun b => { b with status := b0.status, comments := b0.comments }) (fun b => rfl)]
    exact updateBookings_restore db op.target_id _ b0 hnb hfb rfl

theorem comp_step_set_dates (op : BatchOperationItem) (db : DB)
    (hot : op.operation_type = .booking_set_dates)
    (hnb : (db.bookings.map Booking.id).Nodup)
    (hpre : set_dates_open_before (execute_single_operation op false db).1 = true) :
    comp_db (mk_compensation (execute_single_operation op false db).1)
      (execute_single_operation op false db).2 = db := by
  have hA : single_attempt op false db
      = .ok (capture_entity_state op db,
             db.updateBookings op.target_id (fun b =>
               { b with check_in_date := (op.parameters.get "check_in_date").toDateVal, check_out_date := (op.parameters.get "check_out_date").toDateVal, is_open_dates := false })) := by
    simp [single_attempt, hot, operation_handlers, handle_booking_set_dates]
  rw [exec_of_attempt_ok op false db _ _ hA] at hpre ⊢
  cases hfb : db.findBooking op.target_id with
  | none =>
    have hcap : capture_entity_state op db = .emptyState := by
      simp [capture_entity_state, hot, hfb]
    rw [hcap] at hpre
    simp [set_dates_open_before, hot] at hpre
  | some b0 =>
    have hcap : capture_entity_state op db
        = .bookingState b0.status b0.comments b0.check_in_date b0.check_out_date
            b0.is_open_dates := by
      simp [capture_entity_state, hot, hfb]
    rw [hcap] at hpre
    simp only [set_dates_open_before, hot, beq_self_eq_true, not_true, Bool.not_true,
      Bool.false_or, Bool.or_eq_true, Bool.and_eq_true, beq_iff_eq] at hpre
    simp only [comp_db, mk_compensation, execute_compensation_operation, hot, hcap,
      ofValue_strip, compensation_handlers, compensate_booking_set_dates]
    rw [updateBookings_comp db op.target_id
      (fun b => { b with check_in_date := (op.parameters.get "check_in_date").toDateVal, check_out_date := (op.parameters.get "check_out_date").toDateVal, is_open_dates := false })
      (fun b => { b with check_in_date := none, check_out_date := none, is_open_dates := true })
      (fun b => rfl)]
    refine updateBookings_restore db op.target_id _ b0 hnb hfb ?_
    obtain ⟨⟨h1, h2⟩, h3⟩ := hpre
    cases b0
    dsimp only at h1 h2 h3 ⊢
    subst h1
    subst h2
    subst h3
    rfl

theorem comp_step_accommodation (op : BatchOperationItem) (db : DB)
    (hot : op.operation_type = .accommodation_status_update)
    (hna : (db.accommodations.map Accommodation.id).Nodup)
    (hs : (execute_single_operation op false db).1.success = true) :
    comp_db (mk_compensation (execute_single_operation op false db).1)
      (execute_single_operation op false db).2 = db := by
  cases hp : parseAccommodationStatus (op.parameters.get "new_status") with
  | none =>
    exfalso
    have hA : single_attempt op false db
        = .error ("ValueError", "invalid AccommodationStatus value") := by
      simp [single_attempt, hot, operation_handlers, handle_accommodation_status_update, hp]
    rw [exec_of_attempt_error op false db _ _ hA] at hs
    simp at hs
  | some st =>
    have hA : single_attempt op false db
        = .ok (capture_entity_state op db,
               db.updateAccommodations op.target_id (fun a => { a with status := st })) := by
      simp [single_attempt, hot, operation_handlers, handle_accommodation_status_update, hp]
    rw [exec_of_attempt_ok op false db _ _ hA]
    cases hfa : db.findAccommodation op.target_id with
    | none =>
      have hcap : capture_entity_state op db = .emptyState := by
        simp [capture_entity_state, hot, hfa]
      simp only [comp_db, mk_compensation, execute_compensation_operation, hot, hcap,
        ofValue_strip, compensation_handlers, compensate_accommodation_status_update]
      exact updateAccommodations_no_match db op.target_id _ hfa
    | some a0 =>
      have hcap : capture_entity_state op db = .accommodationState a0.status a0.condition := by
        simp [capture_entity_state, hot, hfa]
      simp only [comp_db, mk_compensation, execute_compensation_operation, hot, hcap,
        ofValue_strip, compensation_handlers, compensate_accommodation_status_update]
      rw [updateAccommodations_comp db op.target_id (fun a => { a with status := st })
        (fun a => { a with status := a0.status }) (fun a => rfl)]
      exact updateAccommodations_restore db op.target_id _ a0 hna hfa rfl

/-- Compensating one successful operation immediately after it ran restores
the store it ran on, provided a successful set-dates operation started from
an open-dates booking. -/
theorem comp_step (op : BatchOperationItem) (db : DB)
    (hnb : (db.bookings.map Booking.id).Nodup)
    (hna : (db.accommodations.map Accommodation.id).Nodup)
    (hs : (execute_single_operation op false db).1.success = true)
    (hpre : set_dates_open_before (execute_single_operation op false db).1 = true) :
    comp_db (mk_compensation (execute_single_operation op false db).1)
      (execute_single_operation op false db).2 = db := by
  cases hot : op.operation_type with
  | booking_status_update => exact comp_step_status op db hot hnb hs
  | booking_cancel => exact comp_step_cancel op db hot hnb hs
  | booking_set_dates => exact comp_step_set_dates op db hot hnb hpre
  | accommodation_status_update => exact comp_step_accommodation op db hot hna hs
  | booking_payment_add =>
    exfalso
    have hA : single_attempt op false db
        = .error ("BatchProcessorError",
            "No handler found for operation type: " ++ op.operation_type.value) := by
      simp [single_attempt, hot, operation_handlers]
    rw [exec_of_attempt_error op false db _ _ hA] at hs
    simp at hs
  | client_update =>
    exfalso
    have hA : single_attempt op false db
        = .error ("BatchProcessorError",
            "No handler found for operation type: " ++ op.operation_type.value) := by
      simp [single_attempt, hot, operation_handlers]
    rw [exec_of_attempt_error op false db _ _ hA] at hs
    simp at hs
  | inventory_assign =>
    exfalso
    have hA : single_attempt op false db
        = .error ("BatchProcessorError",
            "No handler found for operation type: " ++ op.operation_type.value) := by
      simp [single_attempt, hot, operation_handlers]
    rw [exec_of_attempt_error op false db _ _ hA] at hs
    simp at hs
  | custom_item_add =>
    exfalso
    have hA : single_attempt op false db
        = .error ("BatchProcessorError",
            "No handler found for operation type: " ++ op.operation_type.value) := by
      simp [single_attempt, hot, operation_handlers]
    rw [exec_of_attempt_error op false db _ _ hA] at hs
    simp at hs

/-! ## Sequential-loop lemmas -/

theorem exec_ids (op : BatchOperationItem) (db : DB)
    (hs : (execute_single_operation op false db).1.success = true) :
    ((execute_single_operation op false db).2).bookings.map Booking.id
        = db.bookings.map Booking.id
      ∧ ((execute_single_operation op false db).2).accommodations.map Accommodation.id
        = db.accommodations.map Accommodation.id := by
  cases hA : single_attempt op false db with
  | error e =>
    obtain ⟨code, msg⟩ := e
    rw [exec_of_attempt_error op false db code msg hA] at hs
    simp at hs
  | ok p =>
    obtain ⟨before, db1⟩ := p
    rw [exec_of_attempt_ok op false db before db1 hA]
    exact attempt_ids op db before db1 hA

theorem seq_go_acc (failFast dryRun : Bool) (ops : List BatchOperationItem) :
    ∀ (acc : List BatchOperationResult) (saga : SagaTransaction) (db : DB),
      ∃ new, (seq_go failFast dryRun ops acc saga db).1 = acc ++ new := by
  induction ops with
  | nil => exact fun acc saga db => ⟨[], by simp [seq_go]⟩
  | cons op rest ih =>
    intro acc saga db
    by_cases hg : (failFast && acc.any (fun r => !r.success)) = true
    · exact ⟨[], by simp [seq_go, hg]⟩
    · rw [seq_go, if_neg hg]
      by_cases hsucc : (execute_single_operation op dryRun db).1.success = true
      · rw [if_pos hsucc]
        obtain ⟨new', hnew⟩ := ih (acc ++ [(execute_single_operation op dryRun db).1]) _ _
        exact ⟨(execute_single_operation op dryRun db).1 :: new', by rw [hnew]; simp⟩
      · rw [if_neg hsucc]
        by_cases hff : failFast = true
        · rw [if_pos hff]
          exact ⟨[(execute_single_operation op dryRun db).1], rfl⟩
        · rw [if_neg hff]
          obtain ⟨new', hnew⟩ := ih (acc ++ [(execute_single_operation op dryRun db).1]) _ _
          exact ⟨(execute_single_operation op dryRun db).1 :: new', by rw [hnew]; simp⟩

/-- The central compensation round-trip: running the fail-fast sequential
loop and then compensating all the new successful results (most recent
first) puts the store back exactly, provided every successful set-dates
result started from an open-dates booking with `NULL` dates. -/
theorem seq_restore (ops : List BatchOperationItem) :
    ∀ (acc : List BatchOperationResult) (saga : SagaTransaction) (db : DB),
      (db.bookings.map Booking.id).Nodup →
      (db.accommodations.map Accommodation.id).Nodup →
      acc.any (fun r => !r.success) = false →
      (∀ r ∈ (seq_go true false ops acc saga db).1.drop acc.length,
        set_dates_open_before r = true) →
      comp_restore_list ((seq_go true false ops acc saga db).1.drop acc.length)
        (seq_go true false ops acc saga db).2.2 = db := by
  induction ops with
  | nil =>
    intro acc saga db _ _ _ _
    simp [seq_go, comp_restore_list, List.drop_length]
  | cons op rest ih =>
    intro acc saga db hnb hna hacc hpre
    have hg : (true && acc.any (fun r => !r.success)) = false := by simp [hacc]
    rw [seq_go, if_neg (by simp [hacc])] at hpre ⊢
    by_cases hsucc : (execute_single_operation op false db).1.success = true
    · rw [if_pos hsucc] at hpre ⊢
      set rd := execute_single_operation op false db with hrd
      obtain ⟨new', hnew⟩ := seq_go_acc true false rest (acc ++ [rd.1])
        { saga with completed_operations := saga.completed_operations ++ [op.operation_id] } rd.2
      have hids := exec_ids op db hsucc
      have hdrop1 : (seq_go true false rest (acc ++ [rd.1])
          { saga with completed_operations := saga.completed_operations ++ [op.operation_id] }
          rd.2).1.drop acc.length = rd.1 :: new' := by
        rw [hnew, List.append_assoc, List.drop_left]
        rfl
      have hdrop2 : (seq_go true false rest (acc ++ [rd.1])
          { saga with completed_operations := saga.completed_operations ++ [op.operation_id] }
          rd.2).1.drop (acc ++ [rd.1]).length = new' := by
        rw [hnew, List.drop_left]
      rw [hdrop1] at hpre ⊢
      have hih := ih (acc ++ [rd.1])
        { saga with completed_operations := saga.completed_operations ++ [op.operation_id] }
        rd.2 (hids.1 ▸ hnb) (hids.2 ▸ hna)
        (by simp [hacc, hsucc])
        (by rw [hdrop2]; intro r hr; exact hpre r (List.mem_cons_of_mem _ hr))
      rw [hdrop2] at hih
      have hfilter : (rd.1 :: new').filter (fun r => r.success)
          = rd.1 :: new'.filter (fun r => r.success) := by
        rw [List.filter_cons_of_pos]
        exact hsucc
      rw [comp_restore_list, hfilter, List.reverse_cons, List.map_append,
        List.foldl_append]
      have : ((new'.filter (fun r => r.success)).reverse.map mk_compensation).foldl
          (fun d c => comp_db c d)
          (seq_go true false rest (acc ++ [rd.1])
            { saga with completed_operations := saga.completed_operations ++ [op.operation_id] }
            rd.2).2.2 = rd.2 := hih
      rw [this]
      simp only [List.map_cons, List.map_nil, List.foldl_cons, List.foldl_nil]
      exact comp_step op db hnb hna hsucc (hpre rd.1 (List.mem_cons_self _ _))
    · rw [if_neg hsucc] at hpre ⊢
      rw [if_pos rfl] at hpre ⊢
      have hdrop : (acc ++ [(execute_single_operation op false db).1]).drop acc.length
          = [(execute_single_operation op false db).1] := List.drop_left _ _
      rw [hdrop]
      have hfdb : (execute_single_operation op false db).2 = db :=
        exec_fail_db op false db (by simpa using hsucc)
      rw [comp_restore_list, List.filter_cons_of_neg, List.filter_nil]
      · simpa using hfdb
      · simpa using hsucc

/-- The fail-fast sequential loop produces results for exactly a prefix of
the operations, every result but possibly the last one is a success, and at
most one failure appears. -/
theorem seq_go_prefix_spec (dryRun : Bool) (ops : List BatchOperationItem) :
    ∀ (acc : List BatchOperationResult) (saga : SagaTransaction) (db : DB),
      acc.any (fun r => !r.success) = false →
      ((seq_go true dryRun ops acc saga db).1.drop acc.length).map (fun r => r.operation_id)
          = (ops.take ((seq_go true dryRun ops acc saga db).1.drop acc.length).length).map
              (fun o => o.operation_id)
        ∧ (∀ r ∈ ((seq_go true dryRun ops acc saga db).1.drop acc.length).dropLast,
            r.success = true)
        ∧ ((seq_go true dryRun ops acc saga db).1.drop acc.length).countP
            (fun r => !r.success) ≤ 1 := by
  induction ops with
  | nil =>
    intro acc saga db _
    simp [seq_go, List.drop_length]
  | cons op rest ih =>
    intro acc saga db hacc
    rw [seq_go, if_neg (by simp [hacc])]
    by_cases hsucc : (execute_single_operation op dryRun db).1.success = true
    · rw [if_pos hsucc]
      set rd := execute_single_operation op dryRun db with hrd
      set saga' : SagaTransaction :=
        { saga with completed_operations := saga.completed_operations ++ [op.operation_id] }
      obtain ⟨new', hnew⟩ := seq_go_acc true dryRun rest (acc ++ [rd.1]) saga' rd.2
      have hdrop1 : (seq_go true dryRun rest (acc ++ [rd.1]) saga' rd.2).1.drop acc.length
          = rd.1 :: new' := by
        rw [hnew, List.append_assoc, List.drop_left]
        rfl
      have hdrop2 : (seq_go true dryRun rest (acc ++ [rd.1]) saga' rd.2).1.drop
          (acc ++ [rd.1]).length = new' := by
        rw [hnew, List.drop_left]
      obtain ⟨ih1, ih2, ih3⟩ := ih (acc ++ [rd.1]) saga' rd.2 (by simp [hacc, hsucc])
      rw [hdrop2] at ih1 ih2 ih3
      rw [hdrop1]
      refine ⟨?_, ?_, ?_⟩
      · simp only [List.map_cons, List.length_cons, List.take_succ_cons]
        rw [ih1, exec_opid]
      · intro r hr
        cases new' with
        | nil => simp at hr
        | cons b l =>
          rw [List.dropLast_cons₂] at hr
          rcases List.mem_cons.1 hr with rfl | hmem
          · exact hsucc
          · exact ih2 r hmem
      · rw [List.countP_cons]
        simp [hsucc, ih3]
    · rw [if_neg hsucc, if_pos rfl]
      have hdrop : (acc ++ [(execute_single_operation op dryRun db).1]).drop acc.length
          = [(execute_single_operation op dryRun db).1] := List.drop_left _ _
      rw [hdrop]
      refine ⟨by simp [exec_opid], by simp, ?_⟩
      rw [List.countP_cons]
      simp only [List.countP_nil, Nat.zero_add]
      split <;> simp

/-! ## Dry-run lemmas -/

theorem exec_dry_db (op : BatchOperationItem) (db : DB) :
    (execute_single_operation op true db).2 = db := by
  cases hA : single_attempt op true db with
  | error e =>
    obtain ⟨code, msg⟩ := e
    rw [exec_of_attempt_error op true db code msg hA]
  | ok p =>
    obtain ⟨before, db1⟩ := p
    rw [exec_of_attempt_ok op true db before db1 hA]
    exact attempt_dry op db before db1 hA

theorem exec_dry_after (op : BatchOperationItem) (db : DB) :
    (execute_single_operation op true db).1.after_state = none := by
  cases hA : single_attempt op true db with
  | error e =>
    obtain ⟨code, msg⟩ := e
    rw [exec_of_attempt_error op true db code msg hA]
  | ok p =>
    obtain ⟨before, db1⟩ := p
    rw [exec_of_attempt_ok op true db before db1 hA]
    simp

theorem dry_go_spec (ops : List BatchOperationItem) :
    ∀ (acc : List BatchOperationResult) (db : DB),
      (dry_go ops acc db).2 = db
        ∧ ∀ r ∈ (dry_go ops acc db).1, r ∈ acc ∨ r.after_state = none := by
  induction ops with
  | nil => exact fun acc db => ⟨rfl, fun r hr => Or.inl hr⟩
  | cons op rest ih =>
    intro acc db
    rw [dry_go]
    obtain ⟨ih1, ih2⟩ := ih (acc ++ [(execute_single_operation op true db).1])
      (execute_single_operation op true db).2
    refine ⟨by rw [ih1, exec_dry_db], fun r hr => ?_⟩
    rcases ih2 r hr with hmem | hafter
    · rcases List.mem_append.1 hmem with hmem | hsing
      · exact Or.inl hmem
      · simp at hsing; subst hsing; exact Or.inr (exec_dry_after op db)
    · exact Or.inr hafter

/-! ## Validation lemmas -/

theorem validate_batch_invalid (req : BatchRequest) (db : DB) (op : BatchOperationItem)
    (hop : op ∈ req.operations) (he : validate_operation_errors db op ≠ []) :
    (validate_batch req db).is_valid = false := by
  obtain ⟨e, hmem⟩ := List.exists_mem_of_ne_nil _ he
  have hmem2 : e ∈ req.operations.flatMap (validate_operation_errors db) :=
    List.mem_flatMap.2 ⟨op, hop, hmem⟩
  show (req.operations.flatMap (validate_operation_errors db)).isEmpty = false
  cases hl : req.operations.flatMap (validate_operation_errors db) with
  | nil => rw [hl] at hmem2; simp at hmem2
  | cons x xs => rfl

theorem validate_entity_exists_unregistered (op : BatchOperationItem) (db : DB)
    (hno : operation_handlers op.operation_type = none) :
    validate_entity_exists op db = false := by
  cases hot : op.operation_type with
  | booking_status_update => rw [hot] at hno; simp [operation_handlers] at hno
  | booking_cancel => rw [hot] at hno; simp [operation_handlers] at hno
  | booking_set_dates => rw [hot] at hno; simp [operation_handlers] at hno
  | accommodation_status_update => rw [hot] at hno; simp [operation_handlers] at hno
  | booking_payment_add => simp [validate_entity_exists, hot]
  | client_update => simp [validate_entity_exists, hot]
  | inventory_assign => simp [validate_entity_exists, hot]
  | custom_item_add => simp [validate_entity_exists, hot]

theorem validate_operation_errors_ne_nil (db : DB) (op : BatchOperationItem)
    (h : op.parameters = [] ∨ validate_entity_exists op db = false) :
    validate_operation_errors db op ≠ [] := by
  unfold validate_operation_errors
  rcases h with hp | hv
  · rw [if_pos hp]
    simp
  · by_cases hp : op.parameters = []
    · rw [if_pos hp]; simp
    · rw [if_neg hp, if_pos (by simp [hv])]
      simp

/-! ## `execute_batch` branch lemmas -/

theorem execute_batch_validation_error (req : BatchRequest) (db : DB)
    (hdry : req.dry_run = false) (hvalid : (validate_batch req db).is_valid = false) :
    execute_batch req db =
      { outcome := .error "Batch validation failed",
        saga := { job_id := req.job_id }, db := db } := by
  simp only [execute_batch, hdry, hvalid]
  simp

theorem execute_batch_comp_branch (req : BatchRequest) (db : DB)
    (hdry : req.dry_run = false) (hvalid : (validate_batch req db).is_valid = true)
    (hff : req.fail_fast = true)
    (hfailed : ((run_operations req db).1.filter (fun r => !r.success)).length > 0) :
    (execute_batch req db).saga
        = { (execute_compensation (run_operations req db).2.1 (run_operations req db).1
              (run_operations req db).2.2).1 with status := BatchOperationStatus.failed }
      ∧ (execute_batch req db).db
        = (execute_compensation (run_operations req db).2.1 (run_operations req db).1
            (run_operations req db).2.2).2 := by
  simp only [execute_batch, hdry, hvalid, hff]
  simp [hfailed]

theorem execute_batch_ok_outcome (req : BatchRequest) (db : DB)
    (hdry : req.dry_run = false) (hvalid : (validate_batch req db).is_valid = true) :
    (execute_batch req db).outcome = .ok
      { job_id := req.job_id, job_name := req.job_name,
        status :=
          if ((run_operations req db).1.filter (fun r => !r.success)).length = 0 then
            BatchJobStatus.completed
          else if ((run_operations req db).1.filter (fun r => r.success)).length = 0 then
            BatchJobStatus.failed
          else BatchJobStatus.completed,
        total_operations := req.operations.length,
        successful_operations := ((run_operations req db).1.filter (fun r => r.success)).length,
        failed_operations := ((run_operations req db).1.filter (fun r => !r.success)).length,
        compensated_operations := (execute_batch req db).saga.compensation_operations.length,
        operation_results := (run_operations req db).1,
        has_failures := ((run_operations req db).1.filter (fun r => !r.success)).length > 0,
        dry_run := req.dry_run } := by
  simp only [execute_batch, hdry, hvalid]
  by_cases hc : (req.fail_fast
      && decide (((run_operations req db).1.filter (fun r => !r.success)).length > 0)) = true
  · simp [hc]
  · simp [hc]

/-! ## Claim theorems -/

/-- C1: when a fail-fast sequential batch finishes with a failure, the
engine builds exactly one `CompensationOperation` per successful result
(never one for a failed result) and attempts them in reverse order of
completion: the compensation list, in attempt order, carries the successful
operation ids reversed, and every entry was attempted (marked completed or
failed). -/
theorem c1_compensation_per_success_reverse (req : BatchRequest) (db : DB)
    (_hseq : req.parallel_execution = false)
    (hdry : req.dry_run = false)
    (hff : req.fail_fast = true)
    (hvalid : (validate_batch req db).is_valid = true)
    (hfail : ((run_operations req db).1.filter (fun r => !r.success)).length > 0) :
    (execute_batch req db).saga.compensation_operations.map
        (fun c => c.original_operation_id)
      = (((run_operations req db).1.filter (fun r => r.success)).map
          (fun r => r.operation_id)).reverse
    ∧ (execute_batch req db).saga.compensation_operations.length
      = ((run_operations req db).1.filter (fun r => r.success)).length
    ∧ ∀ c ∈ (execute_batch req db).saga.compensation_operations,
        c.status = BatchOperationStatus.completed
          ∨ c.status = BatchOperationStatus.failed := by
  obtain ⟨hsaga, hdb⟩ := execute_batch_comp_branch req db hdry hvalid hff hfail
  obtain ⟨h1, h2, h3⟩ := execute_compensation_ops (run_operations req db).2.1
    (run_operations req db).1 (run_operations req db).2.2
  rw [hsaga]
  refine ⟨h1, ?_, h2⟩
  have hlen := congrArg List.length h1
  simpa using hlen

/-- C1 witness: bookings 1-3 confirmed in order A, B, C, then D fails; the
hypotheses hold and compensation is attempted in order C, B, A. -/
theorem c1_witness :
    c1_req.parallel_execution = false ∧ c1_req.dry_run = false ∧ c1_req.fail_fast = true
    ∧ (validate_batch c1_req c1_db).is_valid = true
    ∧ ((run_operations c1_req c1_db).1.filter (fun r => !r.success)).length > 0
    ∧ ((execute_batch c1_req c1_db).saga.compensation_operations.map
          (fun c => c.original_operation_id)
        = (((run_operations c1_req c1_db).1.filter (fun r => r.success)).map
            (fun r => r.operation_id)).reverse
      ∧ (execute_batch c1_req c1_db).saga.compensation_operations.length
        = ((run_operations c1_req c1_db).1.filter (fun r => r.success)).length
      ∧ ∀ c ∈ (execute_batch c1_req c1_db).saga.compensation_operations,
          c.status = BatchOperationStatus.completed
            ∨ c.status = BatchOperationStatus.failed) :=
  ⟨rfl, rfl, rfl, by decide, by decide,
    c1_compensation_per_success_reverse c1_req c1_db rfl rfl rfl (by decide) (by decide)⟩

/-- C2 counterexample: in a fail-fast batch where a set-dates operation on a
booking that already had dates `[10,20)` (not open-dates) succeeds and the
next operation fails, compensation runs (and reports success) but the
booking ends with `NULL` dates and `is_open_dates = true` — not its captured
pre-batch state. -/
theorem c2_counterexample :
    (execute_batch c2_req c2_db).saga.compensation_operations.map
        (fun c => (c.original_operation_id, c.status))
      = [("S1", BatchOperationStatus.completed)]
    ∧ c2_db.findBooking 1
      = some (mkBooking 1 7 .confirmed none (some 10) (some 20) false)
    ∧ (execute_batch c2_req c2_db).db.findBooking 1
      = some (mkBooking 1 7 .confirmed none none none true) := by
  decide

/-- C2 (amended): for every sequential fail-fast batch (valid, on a store
with unique row ids) that finishes with a failure, the compensation pass
restores the store exactly to its pre-batch state, provided every successful
set-dates operation captured an open-dates booking with `NULL` dates in its
`before_state`; without that proviso the set-dates compensation writes
`NULL`/`true` regardless of `before_state` (see the counterexample). -/
theorem c2_amended_round_trip (req : BatchRequest) (db : DB)
    (hseq : req.parallel_execution = false)
    (hdry : req.dry_run = false)
    (hff : req.fail_fast = true)
    (hvalid : (validate_batch req db).is_valid = true)
    (hfail : ((run_operations req db).1.filter (fun r => !r.success)).length > 0)
    (hopen : ∀ r ∈ (run_operations req db).1, set_dates_open_before r = true)
    (hnb : (db.bookings.map Booking.id).Nodup)
    (hna : (db.accommodations.map Accommodation.id).Nodup) :
    (execute_batch req db).db = db := by
  obtain ⟨hsaga, hdb⟩ := execute_batch_comp_branch req db hdry hvalid hff hfail
  rw [hdb, execute_compensation_db]
  have hrun : run_operations req db
      = seq_go true false req.operations [] { job_id := req.job_id } db := by
    simp [run_operations, execute_operations_sequential, hseq, hdry, hff]
  rw [hrun] at hopen ⊢
  have hres := seq_restore req.operations [] { job_id := req.job_id } db hnb hna rfl
    (by simpa using fun r hr => hopen r hr)
  simpa using hres

/-- C2 witness: the same batch run against a store where booking 1 really is
an open-dates booking: all hypotheses hold and the store round-trips. -/
theorem c2_amended_witness :
    c2_req.parallel_execution = false ∧ c2_req.dry_run = false ∧ c2_req.fail_fast = true
    ∧ (validate_batch c2_req c2w_db).is_valid = true
    ∧ ((run_operations c2_req c2w_db).1.filter (fun r => !r.success)).length > 0
    ∧ (∀ r ∈ (run_operations c2_req c2w_db).1, set_dates_open_before r = true)
    ∧ (c2w_db.bookings.map Booking.id).Nodup
    ∧ (c2w_db.accommodations.map Accommodation.id).Nodup
    ∧ (execute_batch c2_req c2w_db).db = c2w_db :=
  ⟨rfl, rfl, rfl, by decide, by decide, by decide, by decide, by decide,
    c2_amended_round_trip c2_req c2w_db rfl rfl rfl (by decide) (by decide) (by decide)
      (by decide) (by decide)⟩

/-- C3: in a sequential fail-fast run the results list covers exactly a
prefix of the operations in order (skipped operations are omitted, not
marked failed), every result before the last is a success, and at most one
failed result appears. -/
theorem c3_fail_fast_prefix (ops : List BatchOperationItem) (dryRun : Bool)
    (saga : SagaTransaction) (db : DB) :
    ((execute_operations_sequential ops true dryRun saga db).1.map (fun r => r.operation_id)
        = (ops.take (execute_operations_sequential ops true dryRun saga db).1.length).map
            (fun o => o.operation_id))
      ∧ (∀ r ∈ (execute_operations_sequential ops true dryRun saga db).1.dropLast,
          r.success = true)
      ∧ (execute_operations_sequential ops true dryRun saga db).1.countP
          (fun r => !r.success) ≤ 1 := by
  have h := seq_go_prefix_spec dryRun ops [] saga db rfl
  simpa [execute_operations_sequential] using h

/-- C4: a non-dry-run batch containing an operation with an empty parameter
map or an unresolvable target id is rejected by generic validation:
`execute_batch` raises before executing anything and the store is unchanged
(including the targets of the valid operations). -/
theorem c4_validation_fail_closed (req : BatchRequest) (db : DB)
    (hdry : req.dry_run = false)
    (hbad : ∃ op ∈ req.operations,
      op.parameters = [] ∨ validate_entity_exists op db = false) :
    (execute_batch req db).outcome = .error "Batch validation failed"
      ∧ (execute_batch req db).db = db := by
  obtain ⟨op, hop, hcase⟩ := hbad
  have hinvalid : (validate_batch req db).is_valid = false :=
    validate_batch_invalid req db op hop (validate_operation_errors_ne_nil db op hcase)
  rw [execute_batch_validation_error req db hdry hinvalid]
  exact ⟨rfl, rfl⟩

/-- C4 witness: three booking-cancel operations, one aimed at nonexistent
booking 999 — the whole batch is rejected and bookings 1 and 2 are
untouched. -/
theorem c4_witness :
    c4_req.dry_run = false
    ∧ (∃ op ∈ c4_req.operations,
        op.parameters = [] ∨ validate_entity_exists op c4_db = false)
    ∧ ((execute_batch c4_req c4_db).outcome = .error "Batch validation failed"
      ∧ (execute_batch c4_req c4_db).db = c4_db) :=
  ⟨rfl, by decide, c4_validation_fail_closed c4_req c4_db rfl (by decide)⟩

/-- C5: every returned `BatchJobResult` has status COMPLETED when there are
zero failed operations, FAILED when there are failures but zero successes,
and COMPLETED again in the mixed case. -/
theorem c5_status_ternary (req : BatchRequest) (db : DB) (job : BatchJobResult)
    (h : (execute_batch req db).outcome = .ok job) :
    (job.failed_operations = 0 → job.status = BatchJobStatus.completed)
      ∧ (job.failed_operations ≠ 0 → job.successful_operations = 0 →
          job.status = BatchJobStatus.failed)
      ∧ (job.failed_operations ≠ 0 → job.successful_operations ≠ 0 →
          job.status = BatchJobStatus.completed) := by
  by_cases hdry : req.dry_run = true
  · have hb : (execute_batch req db).outcome = .ok (execute_dry_run req db).1 := by
      simp [execute_batch, hdry]
    rw [hb] at h
    have hjob := Except.ok.inj h
    rw [← hjob]
    refine ⟨fun _ => rfl, fun h1 _ => absurd rfl h1, fun h1 _ => absurd rfl h1⟩
  · have hdry' : req.dry_run = false := by simpa using hdry
    by_cases hvalid : (validate_batch req db).is_valid = true
    · rw [execute_batch_ok_outcome req db hdry' hvalid] at h
      have hjob := Except.ok.inj h
      rw [← hjob]
      refine ⟨fun h1 => ?_, fun h1 h2 => ?_, fun h1 h2 => ?_⟩
      · simp only at h1 ⊢
        rw [if_pos h1]
      · simp only at h1 h2 ⊢
        rw [if_neg h1, if_pos h2]
      · simp only at h1 h2 ⊢
        rw [if_neg h1, if_neg h2]
    · have hinvalid : (validate_batch req db).is_valid = false := by simpa using hvalid
      rw [execute_batch_validation_error req db hdry' hinvalid] at h
      simp at h

/-- C5 witness: a mixed batch (one success, one failure, no fail-fast)
returns a job result; its status obeys the ternary, landing on COMPLETED. -/
theorem c5_witness :
    (execute_batch c5_req c5_db).outcome = Except.ok c5_job
    ∧ ((c5_job.failed_operations = 0 → c5_job.status = BatchJobStatus.completed)
      ∧ (c5_job.failed_operations ≠ 0 → c5_job.successful_operations = 0 →
          c5_job.status = BatchJobStatus.failed)
      ∧ (c5_job.failed_operations ≠ 0 → c5_job.successful_operations ≠ 0 →
          c5_job.status = BatchJobStatus.completed)) :=
  ⟨by decide, c5_status_ternary c5_req c5_db c5_job (by decide)⟩

/-- C6 counterexample: a non-dry-run batch whose only operation has an
unregistered type (`client_update`).  `execute_batch` raises the
pre-execution validation error — with no compensation attempt (compensation
status still pending, no compensation operations), contradicting
"propagates … after a best-effort compensation attempt"; and had the
operation reached the per-operation executor, the missing-handler
`BatchProcessorError` is caught there and converted into a failed
`BatchOperationResult`, not propagated. -/
theorem c6_counterexample :
    (execute_batch c6_req c6_db).outcome = Except.error "Batch validation failed"
    ∧ (execute_batch c6_req c6_db).saga.compensation_status = BatchOperationStatus.pending
    ∧ (execute_batch c6_req c6_db).saga.compensation_operations = []
    ∧ (execute_single_operation c6_op false c6_db).1.success = false
    ∧ (execute_single_operation c6_op false c6_db).1.error_code = some "BatchProcessorError"
    ∧ (execute_single_operation c6_op false c6_db).2 = c6_db := by
  decide

/-- C6 (amended): a non-dry-run batch containing an operation of an
unregistered type is rejected by generic validation (such a type never
resolves an entity), so `execute_batch` raises the validation error before
any execution, with no compensation attempt and no store change; a
missing-handler error reaching the per-operation executor is caught at that
boundary and converted into a failed result with error code
`BatchProcessorError`, leaving the store unchanged. -/
theorem c6_amended_no_handler (req : BatchRequest) (db : DB) (op : BatchOperationItem)
    (d : Bool) (hdry : req.dry_run = false) (hop : op ∈ req.operations)
    (hno : operation_handlers op.operation_type = none) :
    ((execute_batch req db).outcome = .error "Batch validation failed"
      ∧ (execute_batch req db).saga.compensation_status = BatchOperationStatus.pending
      ∧ (execute_batch req db).saga.compensation_operations = []
      ∧ (execute_batch req db).db = db)
    ∧ ((execute_single_operation op d db).1.success = false
      ∧ (execute_single_operation op d db).1.error_code = some "BatchProcessorError"
      ∧ (execute_single_operation op d db).2 = db) := by
  constructor
  · have hbad : validate_operation_errors db op ≠ [] :=
      validate_operation_errors_ne_nil db op
        (Or.inr (validate_entity_exists_unregistered op db hno))
    have hinvalid := validate_batch_invalid req db op hop hbad
    rw [execute_batch_validation_error req db hdry hinvalid]
    exact ⟨rfl, rfl, rfl, rfl⟩
  · have hA : single_attempt op d db = .error ("BatchProcessorError",
        "No handler found for operation type: " ++ op.operation_type.value) := by
      simp [single_attempt, hno]
    rw [exec_of_attempt_error op d db _ _ hA]
    exact ⟨rfl, rfl, rfl⟩

/-- C6 witness: the amended statement at the concrete `client_update`
batch. -/
theorem c6_amended_witness :
    c6_req.dry_run = false ∧ c6_op ∈ c6_req.operations
    ∧ operation_handlers c6_op.operation_type = none
    ∧ (((execute_batch c6_req c6_db).outcome = .error "Batch validation failed"
        ∧ (execute_batch c6_req c6_db).saga.compensation_status
          = BatchOperationStatus.pending
        ∧ (execute_batch c6_req c6_db).saga.compensation_operations = []
        ∧ (execute_batch c6_req c6_db).db = c6_db)
      ∧ ((execute_single_operation c6_op true c6_db).1.success = false
        ∧ (execute_single_operation c6_op true c6_db).1.error_code
          = some "BatchProcessorError"
        ∧ (execute_single_operation c6_op true c6_db).2 = c6_db)) :=
  ⟨rfl, by decide, rfl,
    c6_amended_no_handler c6_req c6_db c6_op true rfl (by decide) rfl⟩

/-- C7: a dry-run batch changes no stored field of any entity, returns a job
result whose every operation result has `after_state = none`, is reported as
a dry run, and is produced without compensation (and without validation: the
statement holds for batches that would fail generic validation, since the
dry-run path returns before `_validate_batch` runs). -/
theorem c7_dry_run_frame (req : BatchRequest) (db : DB) (hdry : req.dry_run = true) :
    (execute_batch req db).db = db
      ∧ (execute_batch req db).outcome = .ok (execute_dry_run req db).1
      ∧ (∀ r ∈ (execute_dry_run req db).1.operation_results, r.after_state = none)
      ∧ (execute_dry_run req db).1.dry_run = true
      ∧ (execute_batch req db).saga.compensation_status = BatchOperationStatus.pending
      ∧ (execute_batch req db).saga.compensation_operations = [] := by
  have hb : execute_batch req db =
      { outcome := .ok (execute_dry_run req db).1,
        saga := { job_id := req.job_id }, db := (execute_dry_run req db).2 } := by
    simp [execute_batch, hdry]
  obtain ⟨hd, hmem⟩ := dry_go_spec req.operations [] db
  rw [hb]
  refine ⟨?_, rfl, fun r hr => ?_, rfl, rfl, rfl⟩
  · simpa [execute_dry_run] using hd
  · have hr' : r ∈ (dry_go req.operations [] db).1 := by
      simpa [execute_dry_run] using hr
    rcases hmem r hr' with hmem' | hafter
    · simp at hmem'
    · exact hafter

/-- C7 witness: a dry-run batch that would even fail validation (nonexistent
target, unregistered type with empty parameters) still returns a job result,
mutates nothing, and reports every `after_state` as absent. -/
theorem c7_witness :
    c7_req.dry_run = true
    ∧ ((execute_batch c7_req c7_db).db = c7_db
      ∧ (execute_batch c7_req c7_db).outcome = .ok (execute_dry_run c7_req c7_db).1
      ∧ (∀ r ∈ (execute_dry_run c7_req c7_db).1.operation_results, r.after_state = none)
      ∧ (execute_dry_run c7_req c7_db).1.dry_run = true
      ∧ (execute_batch c7_req c7_db).saga.compensation_status
        = BatchOperationStatus.pending
      ∧ (execute_batch c7_req c7_db).saga.compensation_operations = []) :=
  ⟨rfl, c7_dry_run_frame c7_req c7_db rfl⟩

/-- C8: the availability check of `BookingService.check_availability` is
vacuous — `not Booking.is_open_dates` in its `conditions` list is the Python
constant `False`, so the count is always zero and the check always reports
available.  Consequently the set-dates validation accepts the overlapping
assignment `[15,25)` for booking 1 against booking 2's CONFIRMED `[10,20)`
on accommodation 7 (the spec-worded check rejects it), and the bulk
set-dates call goes on to execute, writing the overlapping dates and
flipping `is_open_dates` to false. -/
theorem c8_availability_check_vacuous :
    (∀ (db : DB) (aid ci co : Nat) (ex : Option Nat),
        check_availability db aid ci co ex = true)
    ∧ check_availability_spec c8_db 7 15 25 (some 1) = false
    ∧ validate_date_assignments c8_db [c8_overlap] true = []
    ∧ (bulk_set_booking_dates c8_db [c8_overlap] true false).toOption.map
        (fun e => e.db.findBooking 1)
      = some (some (mkBooking 1 7 .pending none (some 15) (some 25) false)) := by
  refine ⟨?_, by decide, by decide, by decide⟩
  intro db aid ci co ex
  simp [check_availability, check_availability_matches, not_is_open_dates_clause]

/-- C9: the batch booking-cancel handler sets the status to CANCELLED but
*overwrites* the comments column with `"Cancelled: {reason}"`; the prior
comment "VIP guest" is discarded, not preserved-and-appended. -/
theorem c9_cancel_overwrites_comments :
    c9_db.findBooking 5
      = some (mkBooking 5 7 .confirmed (some "VIP guest") (some 1) (some 2) false)
    ∧ (execute_single_operation c9_op false c9_db).1.success = true
    ∧ (execute_single_operation c9_op false c9_db).2.findBooking 5
      = some (mkBooking 5 7 .cancelled (some "Cancelled: weather")
          (some 1) (some 2) false) := by
  decide

/-- C10: a non-dry-run fail-fast batch that finishes with a failure runs the
compensation pass over all successful results even when
`enable_compensation = false`: the pass completes, builds one compensation
per successful result, and attempts each one.  (The flag is consulted only
on the exception-escape path of the source, which the embedded total
semantics never reaches.) -/
theorem c10_compensation_ignores_flag (req : BatchRequest) (db : DB)
    (hdry : req.dry_run = false)
    (hff : req.fail_fast = true)
    (_hnc : req.enable_compensation = false)
    (hvalid : (validate_batch req db).is_valid = true)
    (hfail : ((run_operations req db).1.filter (fun r => !r.success)).length > 0) :
    (execute_batch req db).saga.compensation_status = BatchOperationStatus.completed
    ∧ (execute_batch req db).saga.compensation_operations.length
      = ((run_operations req db).1.filter (fun r => r.success)).length
    ∧ ∀ c ∈ (execute_batch req db).saga.compensation_operations,
        c.status = BatchOperationStatus.completed
          ∨ c.status = BatchOperationStatus.failed := by
  obtain ⟨hsaga, hdb⟩ := execute_batch_comp_branch req db hdry hvalid hff hfail
  obtain ⟨h1, h2, h3⟩ := execute_compensation_ops (run_operations req db).2.1
    (run_operations req db).1 (run_operations req db).2.2
  rw [hsaga]
  refine ⟨h3, ?_, h2⟩
  have hlen := congrArg List.length h1
  simpa using hlen

/-- C10 witness: the concrete fail-fast batch with
`enable_compensation = false` still gets its successful operation
compensated. -/
theorem c10_witness :
    c10_req.dry_run = false ∧ c10_req.fail_fast = true
    ∧ c10_req.enable_compensation = false
    ∧ (validate_batch c10_req c10_db).is_valid = true
    ∧ ((run_operations c10_req c10_db).1.filter (fun r => !r.success)).length > 0
    ∧ ((execute_batch c10_req c10_db).saga.compensation_status
        = BatchOperationStatus.completed
      ∧ (execute_batch c10_req c10_db).saga.compensation_operations.length
        = ((run_operations c10_req c10_db).1.filter (fun r => r.success)).length
      ∧ ∀ c ∈ (execute_batch c10_req c10_db).saga.compensation_operations,
          c.status = BatchOperationStatus.completed
            ∨ c.status = BatchOperationStatus.failed) :=
  ⟨rfl, rfl, rfl, by decide, by decide,
    c10_compensation_ignores_flag c10_req c10_db rfl rfl rfl (by decide) (by decide)⟩

end BookingSaga
